import Mathlib

/-!
# MedicoIA front-end: a shallow embedding of `src/FrontEnd/app.js`

The controller class `MedicoIA` and the global function `showTab` are embedded as pure
functions on an explicit state.

* The page elements that the code addresses by fixed identifier are fields of `State`
  (the markup itself is not part of the repository; every such element is taken to exist,
  except `#char-count`, which the code itself tests for).
* The effects of the code on the outside world are logs inside the state: the notifications
  appended to the body by `showNotification`, the requests handed to `fetch`, the reads handed
  to `FileReader.readAsDataURL`, and the callbacks handed to `setTimeout`.
* What the outside world gives back is an explicit argument: the wall-clock text printed in a
  message, the data URL of a finished read, and the outcome of a request (`FetchOutcome`).
* An `async` method is split at its `await`: one function up to the point where the request
  has been handed to `fetch`, one function for everything after the request has settled. The
  second one takes the state found at that later moment.
* The fragments that `addMessageToChat` writes through `innerHTML` are kept as records with one
  field per hole of the template; strings are inserted verbatim, as in the source. The block
  of recommendations is kept as the markup itself, and its list items are read off that
  markup by a scan that follows the HTML tokenizer.
* The parsed body of a reply is a JSON object with the fields of the backend contract
  (`diagnosis`, `response`, `confidence`, `recommendations`, `conversation_id`), each of them
  optional; a number is the exact value of the double it was parsed to, and arithmetic on it
  rounds as doubles do. JavaScript truthiness is kept: `""` and `0` are falsy, every array is
  truthy.
-/

namespace MedicoIA

/-! ## JavaScript strings and truthiness -/

/-- Code points removed by `String.prototype.trim`: ECMAScript WhiteSpace and LineTerminator. -/
def isTrimmable (c : Char) : Bool :=
  let n := c.toNat
  n == 0x09 || n == 0x0A || n == 0x0B || n == 0x0C || n == 0x0D || n == 0x20 || n == 0xA0 ||
  n == 0x1680 || (0x2000 ≤ n && n ≤ 0x200A) || n == 0x2028 || n == 0x2029 || n == 0x202F ||
  n == 0x205F || n == 0x3000 || n == 0xFEFF

/-- The characters left by `trim`: trimmable characters dropped at both ends. -/
def trimChars (l : List Char) : List Char :=
  ((l.dropWhile isTrimmable).reverse.dropWhile isTrimmable).reverse

/-- The method `String.prototype.trim`. -/
def trim (s : String) : String :=
  ⟨trimChars s.data⟩

/-- The method `String.prototype.startsWith`. -/
def startsWith (s p : String) : Bool :=
  p.data.isPrefixOf s.data

/-- Substring search on character lists. -/
def includesChars : List Char → List Char → Bool
  | [], needle => needle.isPrefixOf []
  | c :: t, needle => needle.isPrefixOf (c :: t) || includesChars t needle

/-- The method `String.prototype.includes`. -/
def includes (s needle : String) : Bool :=
  includesChars s.data needle.data

/-- The property `length` of a string: the number of UTF-16 code units. -/
def jsLength (s : String) : Nat :=
  (s.data.map (fun c => if c.toNat < 0x10000 then 1 else 2)).sum

/-- Truthiness of a value that is a string or `undefined`. -/
def truthyStr : Option String → Bool
  | some v => v != ""
  | none => false

/-- Truthiness of a value that is a number or `undefined`. -/
def truthyNum : Option ℚ → Bool
  | some v => v != 0
  | none => false

/-- The expression `a || b` on values that are a string or `undefined`. -/
def orElse (a b : Option String) : Option String :=
  if truthyStr a then a else b

/-- The text a template literal inserts for a value that is a string or `undefined`. -/
def templateText : Option String → String
  | some v => v
  | none => "undefined"

/-! ## JavaScript Numbers

A finite Number is given by its exact value, a rational. The product of two Numbers is the
double nearest to the exact product, a tie going to the even mantissa, or an infinity. -/

/-- The integer nearest to `n / d`, a tie going to the even one. -/
def roundHalfEven (n d : Nat) : Nat :=
  let q := n / d
  let r := n % d
  if 2 * r < d then q else if d < 2 * r then q + 1 else if q % 2 = 0 then q else q + 1

/-- The number of binary digits of `n`, counted in at most `fuel` steps. -/
def bitLengthAux : Nat → Nat → Nat
  | 0, _ => 0
  | fuel + 1, n => if n = 0 then 0 else bitLengthAux fuel (n / 2) + 1

/-- The number of binary digits of `n`. -/
def bitLength (n : Nat) : Nat :=
  bitLengthAux n n

/-- The exponent of the double nearest to the positive ratio `n / d`: the one that brings
the ratio into `2^52 ≤ n / d / 2^e < 2^53`, and `-1074` for a ratio below the normal doubles. -/
def doubleExponent (n d : Nat) : Int :=
  let l : Int := (bitLength n : Int) - (bitLength d : Int)
  let atLeast : Bool :=
    if 0 ≤ l then decide (d * 2 ^ l.toNat ≤ n) else decide (d ≤ n * 2 ^ (-l).toNat)
  max (if atLeast then l - 52 else l - 53) (-1074)

/-- The mantissa of the double nearest to the positive ratio `n / d` for the exponent `e`:
the integer nearest to `n / d / 2^e`, a tie going to the even one. -/
def doubleMantissa (n d : Nat) (e : Int) : Nat :=
  if 0 ≤ e then roundHalfEven n (d * 2 ^ e.toNat) else roundHalfEven (n * 2 ^ (-e).toNat) d

/-- The double nearest to the positive ratio `n / d`, as a mantissa `m ≤ 2^53` and an
exponent `e ≥ -1074` of value `m * 2^e`; `none` when the ratio rounds beyond the largest
double. -/
def doubleOfRatio (n d : Nat) : Option (Nat × Int) :=
  let e := doubleExponent n d
  let m := doubleMantissa n d e
  if 971 < e ∨ (e = 971 ∧ m = 2 ^ 53) then none else some (m, e)

/-- What an arithmetic operation on finite Numbers returns: a finite double, given by its
exact value, or an infinity. -/
inductive JsNumber where
  | finite (value : ℚ)
  | infinity (negative : Bool)
deriving DecidableEq

/-- The Number value for a real: the nearest double, a tie going to the even mantissa. -/
def roundToDouble (q : ℚ) : JsNumber :=
  if q = 0 then JsNumber.finite 0
  else
    match doubleOfRatio q.num.natAbs q.den with
    | none => JsNumber.infinity (decide (q < 0))
    | some (m, e) => JsNumber.finite ((if q < 0 then -1 else 1) * (m : ℚ) * 2 ^ e)

/-- The operator `*` on two finite Numbers. -/
def numberMul (a b : ℚ) : JsNumber :=
  roundToDouble (a * b)

/-- The function `Math.round` on a finite Number: the nearest integer, a tie going up. -/
def mathRound (x : ℚ) : Int :=
  ⌊x + 1 / 2⌋

/-- The value of `Math.round`: an integer or an infinity. -/
inductive Rounded where
  | int (p : Int)
  | infinity (negative : Bool)
deriving DecidableEq

/-- The function `Math.round` on the result of an arithmetic operation. -/
def JsNumber.round : JsNumber → Rounded
  | JsNumber.finite x => Rounded.int (mathRound x)
  | JsNumber.infinity negative => Rounded.infinity negative

/-- The comparison `p >= k` for an integer `k`. -/
def Rounded.ge (p : Rounded) (k : Int) : Bool :=
  match p with
  | Rounded.int n => decide (k ≤ n)
  | Rounded.infinity negative => !negative

/-- The integer value of the double nearest to the integer `w > 0`, when it is finite. -/
def doubleOfNat (w : Nat) : Option Nat :=
  match doubleOfRatio w 1 with
  | none => none
  | some (m, e) => some (if 0 ≤ e then m * 2 ^ e.toNat else m / 2 ^ (-e).toNat)

/-- The search of `Number::toString` for an integer double `v > 0` of `digits` decimal
digits: the decimal integer with the fewest significant digits, `k` or more, whose Number
value is `v`, and among those the one closest to `v`, the even one on a tie. -/
def shortestDecimal (v digits : Nat) : Nat → Nat → Nat
  | 0, _ => v
  | fuel + 1, k =>
    let t := digits - k
    let lo := v / 10 ^ t * 10 ^ t
    let hi := lo + 10 ^ t
    let okLo := doubleOfNat lo == some v
    let okHi := doubleOfNat hi == some v
    if okLo && okHi then
      (if v - lo < hi - v then lo
       else if hi - v < v - lo then hi
       else if (lo / 10 ^ t) % 2 = 0 then lo else hi)
    else if okLo then lo
    else if okHi then hi
    else shortestDecimal v digits fuel (k + 1)

/-- Decimal digits without their trailing zeros. -/
def stripZeros (ds : List Char) : List Char :=
  (ds.reverse.dropWhile (fun c => c == '0')).reverse

/-- The text of `Number::toString` for an integer-valued double: the shortest decimal that
reads back as the double, written out in full up to 21 digits and with an exponent beyond. -/
def intToString (p : Int) : String :=
  if p = 0 then "0"
  else
    let v := p.natAbs
    let digits := (Nat.toDigits 10 v).length
    let w := shortestDecimal v digits digits 1
    let ds := Nat.toDigits 10 w
    let n := ds.length
    let body : String :=
      if n ≤ 21 then String.mk ds
      else
        match stripZeros ds with
        | [] => ""
        | [d] => String.mk [d] ++ "e+" ++ toString (n - 1)
        | d :: rest => String.mk (d :: '.' :: rest) ++ "e+" ++ toString (n - 1)
    (if p < 0 then "-" else "") ++ body

/-- The text a template literal inserts for the value of `Math.round`. -/
def Rounded.toText : Rounded → String
  | Rounded.int p => intToString p
  | Rounded.infinity negative => if negative then "-Infinity" else "Infinity"

/-! ## Class lists -/

/-- The methods `classList.add` and `classList.remove` for one class name. -/
def classAdd (classes : List String) (c : String) : List String :=
  if c ∈ classes then classes else classes ++ [c]

def classRemove (classes : List String) (c : String) : List String :=
  classes.filter (fun d => d != c)

/-! ## Data -/

/-- The second argument of `showNotification`. -/
inductive Severity where
  | success
  | error
  | warning
  | info
deriving DecidableEq

/-- A notification appended to the body by `showNotification`. -/
structure Notification where
  message : String
  type : Severity
deriving DecidableEq

/-- A `File` handed over by the file input or by a drop. -/
structure File where
  name : String
  type : String
  size : Nat
deriving DecidableEq

/-- A button: its `disabled` property and its `innerHTML`. -/
structure Button where
  disabled : Bool
  innerHTML : String
deriving DecidableEq

/-- The body of a request: `JSON.stringify` of the object with the one key `message`, or the
`FormData` with the fields `image` and `message`. -/
inductive Body where
  | json (message : String)
  | formData (image : File) (message : String)
deriving DecidableEq

/-- A call of `fetch`. -/
structure Request where
  url : String
  method : String
  contentType : Option String
  body : Body
deriving DecidableEq

/-- The parsed body of a reply of the backend. -/
structure BackendResponse where
  diagnosis : Option String
  response : Option String
  confidence : Option ℚ
  recommendations : Option (List String)
  conversation_id : Option String
deriving DecidableEq

/-- The result of `response.json()`. -/
inductive JsonResult where
  | parsed (result : BackendResponse)
  | syntaxError (message : String)
deriving DecidableEq

/-- How a call of `fetch` settles: it rejects with an error that has the given `message`, or
it resolves to a response with a status and a body. -/
inductive FetchOutcome where
  | rejected (message : String)
  | response (status : Nat) (json : JsonResult)
deriving DecidableEq

/-- The property `response.ok`. -/
def FetchOutcome.statusOk (status : Nat) : Bool :=
  200 ≤ status && status ≤ 299

/-- The block `confidenceHtml` of `addMessageToChat`, one field per hole of the template. -/
structure ConfidenceHtml where
  iconClass : String
  textClass : String
  text : String
  fillClass : String
  fillStyle : String
deriving DecidableEq

/-- The element `messageDiv` built by `addMessageToChat`. -/
structure MessageDiv where
  className : String
  avatarBefore : Option String
  bubbleClass : String
  header : Option String
  content : String
  confidenceHtml : Option ConfidenceHtml
  recommendationsHtml : String
  disclaimer : Option String
  timeClass : String
  time : String
  avatarAfter : Option String
deriving DecidableEq

/-- A child of `#chat-messages`: the welcome block (the only markup with the class
`animate-fade-in`) or a message built by `addMessageToChat`. -/
inductive ChatChild where
  | welcome
  | message (div : MessageDiv)
deriving DecidableEq

/-- A callback handed to `setTimeout`, with its delay in milliseconds. -/
inductive Timeout where
  | restoreWelcome (delay : Nat)
deriving DecidableEq

/-- The controller's fields, the page elements it touches and the logs of its effects. -/
structure State where
  apiBase : String
  currentConversationId : Option String
  currentImage : Option File
  welcomeCleared : Bool
  messageInput : String
  charCount : Option String
  sendBtn : Button
  analyzeBtn : Button
  imageInput : String
  dropZoneContent : List String
  imagePreview : List String
  previewImg : String
  imageName : String
  loadingOverlay : List String
  chatMessages : List ChatChild
  notifications : List Notification
  requests : List Request
  reads : List File
  timeouts : List Timeout
deriving DecidableEq

/-! ## The methods of `MedicoIA` -/

/-- The method `showNotification(message, type)`: one more notification on the page. (The
notification is also scheduled for removal five seconds later; the log keeps it.) -/
def showNotification (s : State) (message : String) (type : Severity) : State :=
  { s with notifications := s.notifications ++ [⟨message, type⟩] }

/-- The method `showLoading(show)`. -/
def showLoading (s : State) (showIt : Bool) : State :=
  if showIt then
    { s with loadingOverlay := classAdd (classRemove s.loadingOverlay "hidden") "flex" }
  else
    { s with loadingOverlay := classRemove (classAdd s.loadingOverlay "hidden") "flex" }

/-- The method `updateCharacterCount()`. -/
def updateCharacterCount (s : State) : State :=
  match s.charCount with
  | some _ => { s with charCount := some (toString (jsLength s.messageInput)) }
  | none => s

/-- Whether a child of `#chat-messages` matches the selector `.animate-fade-in`. -/
def ChatChild.isFadeIn : ChatChild → Bool
  | .welcome => true
  | .message _ => false

/-- The method `clearWelcomeMessage()`. -/
def clearWelcomeMessage (s : State) : State :=
  let welcomeMessages := s.chatMessages.filter ChatChild.isFadeIn
  if welcomeMessages.length > 0 && !s.welcomeCleared then
    { s with
      chatMessages := s.chatMessages.filter (fun c => !c.isFadeIn)
      welcomeCleared := true }
  else s

/-- The two avatars of `addMessageToChat`. -/
def userAvatar : String :=
  "<div class=\"w-10 h-10 bg-blue-500 rounded-full flex items-center justify-center text-white\"><i class=\"fas fa-user-md\"></i></div>"

def assistantAvatar : String :=
  "<div class=\"w-10 h-10 bg-medical-500 rounded-full flex items-center justify-center text-white\"><i class=\"fas fa-robot\"></i></div>"

/-- The constants `confidenceColor` and `confidenceIcon` of `addMessageToChat`. -/
def confidenceColor (confidence : Rounded) : String :=
  if confidence.ge 80 then "success" else if confidence.ge 60 then "warning" else "danger"

def confidenceIcon (confidence : Rounded) : String :=
  if confidence.ge 80 then "check-circle"
  else if confidence.ge 60 then "exclamation-triangle" else "times-circle"

/-- The block `confidenceHtml` for a truthy `fullResponse.confidence`. -/
def confidenceBlock (c : ℚ) : ConfidenceHtml :=
  let confidence := (numberMul c 100).round
  { iconClass := "fas fa-" ++ confidenceIcon confidence ++ " text-" ++
      confidenceColor confidence ++ "-500 mr-1"
    textClass := "text-sm font-bold text-" ++ confidenceColor confidence ++ "-600"
    text := confidence.toText ++ "%"
    fillClass := "confidence-fill bg-" ++ confidenceColor confidence ++ "-500"
    fillStyle := "width: " ++ confidence.toText ++ "%" }

/-! ## Markup of the recommendations block

The block is the string that the template builds. Its list items are read off that string by
a scan that follows the HTML tokenizer through data, tag names and attributes, and the tree
builder through the stack of open elements. The scan knows the tags of the template only
(`div`, `h4`, `i`, `ul`, `li`) and starts inside the `div` elements of the bubble. It gives no
answer for any other markup, for a character reference, a NUL or a carriage return inside an
item, for an item inside an item, and for an `i` element that is closed by another tag. -/

/-- The markup of one item of the list of recommendations. -/
def recommendationItem (rec : String) : String :=
  "<li class=\"text-sm text-blue-800\">• " ++ rec ++ "</li>"

/-- The method `join` with the empty separator. -/
def joinAll : List String → String
  | [] => ""
  | part :: rest => part ++ joinAll rest

/-- The template of `recommendationsHtml` before the items and after them. -/
def recommendationsOpen : String :=
  "\n                <div class=\"mt-3 p-3 bg-blue-50 rounded-lg\">\n                    <h4 class=\"text-sm font-medium text-blue-900 mb-2\">\n                        <i class=\"fas fa-pills mr-2\"></i>Recomendaciones:\n                    </h4>\n                    <ul class=\"space-y-1\">\n                        "

def recommendationsClose : String :=
  "\n                    </ul>\n                </div>\n            "

/-- The template of `recommendationsHtml` for a list that is not empty. -/
def recommendationsBlock (recs : List String) : String :=
  recommendationsOpen ++ joinAll (recs.map recommendationItem) ++ recommendationsClose

/-- The states of the scan. -/
inductive ScanMode where
  | data
  | tagOpen
  | endTagOpen
  | tagName
  | beforeAttributeName
  | attributeName
  | afterAttributeName
  | beforeAttributeValue
  | attributeValueDouble
  | attributeValueSingle
  | attributeValueUnquoted
  | afterAttributeValue
  | selfClosingStartTag
  | unsupported
deriving DecidableEq

/-- The scan of a markup: the state, the tag being read, the open elements with the innermost
first, the texts of the items that are closed and the text of the item that is open. -/
structure Scan where
  mode : ScanMode
  closing : Bool
  name : List Char
  stack : List (List Char)
  items : List String
  buffer : List Char
deriving DecidableEq

/-- The start of a scan. -/
def Scan.start : Scan :=
  { mode := ScanMode.data, closing := false, name := [], stack := [], items := [], buffer := [] }

/-- The white space of the tokenizer inside a tag, a carriage return counting as a line
feed. -/
def isTagSpace (c : Char) : Bool :=
  c.toNat == 0x09 || c.toNat == 0x0A || c.toNat == 0x0C || c.toNat == 0x0D || c.toNat == 0x20

/-- The ASCII letters, which open a tag name. -/
def isAsciiLetter (c : Char) : Bool :=
  (0x41 ≤ c.toNat && c.toNat ≤ 0x5A) || (0x61 ≤ c.toNat && c.toNat ≤ 0x7A)

/-- A character of text that reaches an item as it is: not `<`, not `&`, not NUL, not a
carriage return. -/
def isPlainText (c : Char) : Bool :=
  c.toNat != 0x3C && c.toNat != 0x26 && c.toNat != 0x00 && c.toNat != 0x0D

/-- The scan once the tag is handled, with the open elements that remain; `popped` are the
elements that the tag closed. An `li` among them closes the open item; an `i` among them is
not covered. -/
def Scan.pop (s : Scan) (popped remaining : List (List Char)) : Scan :=
  if "i".data ∈ popped then { s with mode := ScanMode.unsupported }
  else if "li".data ∈ popped then
    { mode := ScanMode.data, closing := false, name := [], stack := remaining,
      items := s.items ++ [String.mk s.buffer], buffer := [] }
  else
    { mode := ScanMode.data, closing := false, name := [], stack := remaining,
      items := s.items, buffer := s.buffer }

/-- The scan once the tag is handled and its element is open. -/
def Scan.push (s : Scan) (element : List Char) : Scan :=
  { s with mode := ScanMode.data, closing := false, name := [], stack := element :: s.stack }

/-- The end of a tag, as the tree builder handles it in the body. -/
def Scan.emitTag (s : Scan) : Scan :=
  if s.name = "li".data then
    if s.closing then
      let passed := s.stack.takeWhile (fun e => e != "li".data && e != "ul".data)
      match s.stack.drop passed.length with
      | top :: rest =>
        if top = "li".data then s.pop (passed ++ [top]) rest else s.pop [] s.stack
      | [] => s.pop [] s.stack
    else
      let passed :=
        s.stack.takeWhile (fun e => e != "li".data && e != "ul".data && e != "h4".data)
      match s.stack.drop passed.length with
      | top :: rest =>
        if top = "li".data then (s.pop (passed ++ [top]) rest).push "li".data
        else if "li".data ∈ rest then { s with mode := ScanMode.unsupported }
        else { s.push "li".data with buffer := [] }
      | [] => { s.push "li".data with buffer := [] }
  else if s.name = "div".data ∨ s.name = "ul".data ∨ s.name = "h4".data then
    if s.closing then
      if s.name ∈ s.stack then
        let passed := s.stack.takeWhile (fun e => e != s.name)
        s.pop (passed ++ [s.name]) (s.stack.drop (passed.length + 1))
      else if s.name = "div".data then s.pop s.stack []
      else s.pop [] s.stack
    else if s.name = "h4".data ∧ s.stack.head? = some "h4".data then
      { s with mode := ScanMode.data, closing := false, name := [] }
    else s.push s.name
  else if s.name = "i".data then
    if s.closing then
      if s.stack.head? = some "i".data then
        { s with mode := ScanMode.data, closing := false, name := [], stack := s.stack.tail }
      else if "i".data ∈ s.stack then { s with mode := ScanMode.unsupported }
      else s.pop [] s.stack
    else s.push "i".data
  else { s with mode := ScanMode.unsupported }

/-- One character of the scan. -/
def Scan.step (s : Scan) (c : Char) : Scan :=
  match s.mode with
  | ScanMode.unsupported => s
  | ScanMode.data =>
    if c.toNat == 0x3C then { s with mode := ScanMode.tagOpen }
    else if "li".data ∈ s.stack then
      if isPlainText c then { s with buffer := s.buffer ++ [c] }
      else { s with mode := ScanMode.unsupported }
    else s
  | ScanMode.tagOpen =>
    if isAsciiLetter c then
      { s with mode := ScanMode.tagName, closing := false, name := [c.toLower] }
    else if c.toNat == 0x2F then { s with mode := ScanMode.endTagOpen }
    else { s with mode := ScanMode.unsupported }
  | ScanMode.endTagOpen =>
    if isAsciiLetter c then
      { s with mode := ScanMode.tagName, closing := true, name := [c.toLower] }
    else { s with mode := ScanMode.unsupported }
  | ScanMode.tagName =>
    if isTagSpace c then { s with mode := ScanMode.beforeAttributeName }
    else if c.toNat == 0x2F then { s with mode := ScanMode.selfClosingStartTag }
    else if c.toNat == 0x3E then s.emitTag
    else if c.toNat == 0x00 then { s with mode := ScanMode.unsupported }
    else { s with name := s.name ++ [c.toLower] }
  | ScanMode.beforeAttributeName =>
    if isTagSpace c then s
    else if c.toNat == 0x2F then { s with mode := ScanMode.selfClosingStartTag }
    else if c.toNat == 0x3E then s.emitTag
    else { s with mode := ScanMode.attributeName }
  | ScanMode.attributeName =>
    if isTagSpace c then { s with mode := ScanMode.afterAttributeName }
    else if c.toNat == 0x2F then { s with mode := ScanMode.selfClosingStartTag }
    else if c.toNat == 0x3E then s.emitTag
    else if c.toNat == 0x3D then { s with mode := ScanMode.beforeAttributeValue }
    else s
  | ScanMode.afterAttributeName =>
    if isTagSpace c then s
    else if c.toNat == 0x2F then { s with mode := ScanMode.selfClosingStartTag }
    else if c.toNat == 0x3D then { s with mode := ScanMode.beforeAttributeValue }
    else if c.toNat == 0x3E then s.emitTag
    else { s with mode := ScanMode.attributeName }
  | ScanMode.beforeAttributeValue =>
    if isTagSpace c then s
    else if c.toNat == 0x22 then { s with mode := ScanMode.attributeValueDouble }
    else if c.toNat == 0x27 then { s with mode := ScanMode.attributeValueSingle }
    else if c.toNat == 0x3E then s.emitTag
    else { s with mode := ScanMode.attributeValueUnquoted }
  | ScanMode.attributeValueDouble =>
    if c.toNat == 0x22 then { s with mode := ScanMode.afterAttributeValue } else s
  | ScanMode.attributeValueSingle =>
    if c.toNat == 0x27 then { s with mode := ScanMode.afterAttributeValue } else s
  | ScanMode.attributeValueUnquoted =>
    if isTagSpace c then { s with mode := ScanMode.beforeAttributeName }
    else if c.toNat == 0x3E then s.emitTag
    else s
  | ScanMode.afterAttributeValue =>
    if isTagSpace c then { s with mode := ScanMode.beforeAttributeName }
    else if c.toNat == 0x2F then { s with mode := ScanMode.selfClosingStartTag }
    else if c.toNat == 0x3E then s.emitTag
    else { s with mode := ScanMode.attributeName }
  | ScanMode.selfClosingStartTag =>
    if c.toNat == 0x3E then s.emitTag
    else if isTagSpace c then { s with mode := ScanMode.beforeAttributeName }
    else if c.toNat == 0x2F then s
    else { s with mode := ScanMode.attributeName }

/-- The scan with some items closed before it started. -/
def Scan.after (before : List String) (s : Scan) : Scan :=
  { s with items := before ++ s.items }

/-- The texts of the list items of a markup, in document order, when the scan covers it: the
items that are closed and, at the end of the markup, the one that is still open. -/
def listItems (html : String) : Option (List String) :=
  let s := html.data.foldl Scan.step Scan.start
  if s.mode = ScanMode.data then
    some (if "li".data ∈ s.stack then s.items ++ [String.mk s.buffer] else s.items)
  else none

/-! ## The methods of `MedicoIA`, continued -/

/-- The paragraph of the disclaimer block of `addMessageToChat`. -/
def disclaimerHtml : String :=
  "<i class=\"fas fa-exclamation-triangle mr-1\"></i> <strong>Importante:</strong> Este diagnóstico debe ser validado por un profesional médico."

/-- The element built by `addMessageToChat(role, content, fullResponse, hasImage,
isImageAnalysis)`; `time` is the text `toLocaleTimeString` gives at that moment. -/
def renderMessage (time : String) (role : String) (content : Option String)
    (fullResponse : Option BackendResponse) (_hasImage : Bool) (isImageAnalysis : Bool) :
    MessageDiv :=
  let isUser : Bool := role == "user"
  let alignClass := if isUser then "justify-end" else "justify-start"
  let bgClass := if isUser then "bg-medical-500 text-white" else "bg-white border border-gray-200"
  let roundedClass := if isUser then "rounded-2xl rounded-br-sm" else "rounded-2xl rounded-bl-sm"
  let avatar := if isUser then userAvatar else assistantAvatar
  let confidenceHtml : Option ConfidenceHtml :=
    match fullResponse with
    | some r =>
      if !isUser && truthyNum r.confidence then r.confidence.map confidenceBlock else none
    | none => none
  let recommendationsHtml : String :=
    match fullResponse with
    | some r =>
      match r.recommendations with
      | some recs => if recs.length > 0 then recommendationsBlock recs else ""
      | none => ""
    | none => ""
  let analysisIcon :=
    if isImageAnalysis then "<i class=\"fas fa-microscope text-medical-500 mr-2\"></i>" else ""
  { className := "flex " ++ alignClass ++ " space-x-3 animate-slide-up"
    avatarBefore := if !isUser then some avatar else none
    bubbleClass := "message-bubble " ++ bgClass ++ " " ++ roundedClass ++ " p-4 shadow-md max-w-xl"
    header := if isUser then none else some (analysisIcon ++ "Asistente Médico")
    content := templateText content
    confidenceHtml := confidenceHtml
    recommendationsHtml := recommendationsHtml
    disclaimer := if !isUser && fullResponse.isSome then some disclaimerHtml else none
    timeClass := "text-xs " ++ (if isUser then "text-blue-100" else "text-gray-500") ++ " mt-2"
    time := time
    avatarAfter := if isUser then some avatar else none }

/-- The method `addMessageToChat`: the element is appended to `#chat-messages`. -/
def addMessageToChat (s : State) (time : String) (role : String) (content : Option String)
    (fullResponse : Option BackendResponse) (hasImage : Bool) (isImageAnalysis : Bool) : State :=
  { s with
    chatMessages := s.chatMessages ++
      [.message (renderMessage time role content fullResponse hasImage isImageAnalysis)] }

/-- The method `handleImageUpload(file)`, up to the call of `readAsDataURL`. -/
def handleImageUpload (s : State) (file : File) : State :=
  if !startsWith file.type "image/" then
    showNotification s "Por favor, selecciona un archivo de imagen válido" .error
  else
    let maxSize := 10 * 1024 * 1024
    if file.size > maxSize then
      showNotification s "La imagen es demasiado grande. Máximo 10MB." .error
    else
      { s with reads := s.reads ++ [file] }

/-- The handler `reader.onload` installed by `handleImageUpload(file)`; `result` is the data
URL that was read. -/
def readerOnload (s : State) (file : File) (result : String) : State :=
  let s := { s with
    previewImg := result
    imageName := file.name
    dropZoneContent := classAdd s.dropZoneContent "hidden"
    imagePreview := classRemove s.imagePreview "hidden"
    analyzeBtn := { s.analyzeBtn with disabled := false }
    currentImage := some file }
  showNotification s "Imagen cargada correctamente" .success

/-- The method `removeImage()`. -/
def removeImage (s : State) : State :=
  { s with
    dropZoneContent := classRemove s.dropZoneContent "hidden"
    imagePreview := classAdd s.imagePreview "hidden"
    analyzeBtn := { s.analyzeBtn with disabled := true }
    imageInput := ""
    currentImage := none }

/-- The labels of the two buttons. -/
def sendBusyLabel : String := "<i class=\"fas fa-spinner fa-spin mr-2\"></i>Procesando..."

def sendIdleLabel : String := "<i class=\"fas fa-paper-plane mr-2\"></i>Diagnosticar"

def analyzeBusyLabel : String := "<i class=\"fas fa-spinner fa-spin mr-2\"></i>Analizando..."

def analyzeIdleLabel : String := "<i class=\"fas fa-microscope mr-2\"></i>Analizar Imagen"

/-- The texts of the error turns of `sendMessage`. -/
def chatGenericError : String := "Lo siento, ocurrió un error al procesar tu mensaje."

def chatUnreachable : String :=
  "⚠️ No se puede conectar con el backend. Asegúrate de que esté ejecutándose en http://localhost:5000"

/-- The texts of the error turns of `analyzeImage`. -/
def imageGenericError : String := "Lo siento, ocurrió un error al analizar la imagen."

def imageUnreachable : String :=
  "⚠️ No se puede conectar con el backend para analizar la imagen. Verifica que esté ejecutándose en http://localhost:5000"

/-- The message of the error thrown for a response that is not `ok`. -/
def httpErrorMessage (status : Nat) : String :=
  "HTTP error! status: " ++ toString status

/-- The method `sendMessage()` from the disabling of the send button to the call of `fetch`,
for the trimmed text `message`. -/
def sendMessageRequest (s : State) (message : String) (time : String) : State :=
  let s := { s with sendBtn := { disabled := true, innerHTML := sendBusyLabel } }
  let s := clearWelcomeMessage s
  let s := addMessageToChat s time "user" (some message) none false false
  let s := { s with messageInput := "" }
  let s := updateCharacterCount s
  { s with requests := s.requests ++
      [{ url := s.apiBase ++ "/chat", method := "POST", contentType := some "application/json",
         body := .json message }] }

/-- The `try` block of `sendMessage()` after the `await`: the new state, or the message of
the error that was thrown. -/
def sendMessageTry (s : State) (time : String) : FetchOutcome → Except String State
  | .rejected message => .error message
  | .response status json =>
    if !FetchOutcome.statusOk status then .error (httpErrorMessage status)
    else
      match json with
      | .syntaxError message => .error message
      | .parsed result =>
        let s := addMessageToChat s time "assistant" (orElse result.diagnosis result.response)
          (some result) false false
        .ok (if truthyStr result.conversation_id then
          { s with currentConversationId := result.conversation_id } else s)

/-- The `catch` block of `sendMessage()`. -/
def sendMessageCatch (s : State) (time : String) (message : String) : State :=
  let errorMessage :=
    if includes message "Failed to fetch" then chatUnreachable
    else if includes message "HTTP error" then "Error del servidor: " ++ message
    else chatGenericError
  let s := addMessageToChat s time "assistant" (some errorMessage) none false false
  showNotification s "Error al enviar el mensaje" .error

/-- The method `sendMessage()` after the request has settled: `try`, `catch`, `finally`. -/
def sendMessageSettled (s : State) (time : String) (outcome : FetchOutcome) : State :=
  let s := match sendMessageTry s time outcome with
    | .ok s1 => s1
    | .error message => sendMessageCatch s time message
  { s with sendBtn := { disabled := false, innerHTML := sendIdleLabel } }

/-- The method `sendMessage()`, run to completion with nothing else in between. -/
def sendMessage (s : State) (timeSent timeReply : String) (outcome : FetchOutcome) : State :=
  let message := trim s.messageInput
  if message = "" then
    showNotification s "Por favor, escribe un mensaje" .warning
  else
    sendMessageSettled (sendMessageRequest s message timeSent) timeReply outcome

/-- The method `analyzeImage()` from the disabling of the analyze button to the call of
`fetch`, for the staged image `image`. -/
def analyzeImageRequest (s : State) (image : File) (time : String) : State :=
  let trimmed := trim s.messageInput
  let description := if trimmed = "" then "Analizar imagen médica" else trimmed
  let s := { s with analyzeBtn := { disabled := true, innerHTML := analyzeBusyLabel } }
  let s := showLoading s true
  let s := clearWelcomeMessage s
  let s := addMessageToChat s time "user"
    (some ("🖼️ **Imagen médica enviada**\n\n**Descripción:** " ++ description)) none true false
  let s := { s with messageInput := "" }
  { s with requests := s.requests ++
      [{ url := s.apiBase ++ "/analyze-image", method := "POST", contentType := none,
         body := .formData image description }] }

/-- The `try` block of `analyzeImage()` after the `await`. -/
def analyzeImageTry (s : State) (time : String) : FetchOutcome → Except String State
  | .rejected message => .error message
  | .response status json =>
    if !FetchOutcome.statusOk status then .error (httpErrorMessage status)
    else
      match json with
      | .syntaxError message => .error message
      | .parsed result =>
        let s := addMessageToChat s time "assistant" (orElse result.diagnosis result.response)
          (some result) false true
        let s := if truthyStr result.conversation_id then
          { s with currentConversationId := result.conversation_id } else s
        .ok (removeImage s)

/-- The `catch` block of `analyzeImage()`. -/
def analyzeImageCatch (s : State) (time : String) (message : String) : State :=
  let errorMessage :=
    if includes message "Failed to fetch" then imageUnreachable
    else if includes message "HTTP error" then "Error del servidor al analizar imagen: " ++ message
    else imageGenericError
  let s := addMessageToChat s time "assistant" (some errorMessage) none false false
  showNotification s "Error al analizar la imagen" .error

/-- The method `analyzeImage()` after the request has settled. -/
def analyzeImageSettled (s : State) (time : String) (outcome : FetchOutcome) : State :=
  let s := match analyzeImageTry s time outcome with
    | .ok s1 => s1
    | .error message => analyzeImageCatch s time message
  let s := { s with analyzeBtn := { disabled := false, innerHTML := analyzeIdleLabel } }
  showLoading s false

/-- The method `analyzeImage()`, run to completion with nothing else in between. -/
def analyzeImage (s : State) (timeSent timeReply : String) (outcome : FetchOutcome) : State :=
  match s.currentImage with
  | none => showNotification s "Por favor, selecciona una imagen primero" .warning
  | some image => analyzeImageSettled (analyzeImageRequest s image timeSent) timeReply outcome

/-- The method `clearChat()`; the restore of the welcome block is left scheduled. -/
def clearChat (s : State) : State :=
  let s := { s with chatMessages := [] }
  let s := { s with timeouts := s.timeouts ++ [Timeout.restoreWelcome 300] }
  let s := { s with currentConversationId := none }
  showNotification s "Chat limpiado" .success

/-- A scheduled callback fires, in the state found at that moment. -/
def runTimeout (s : State) : Timeout → State
  | .restoreWelcome _ => { s with chatMessages := [ChatChild.welcome], welcomeCleared := false }

/-! ## The global function `showTab`

The page is the list of its elements in document order, each with what `showTab` reads or
writes: the identifier, the class list, the `onclick` attribute and the inline style. -/

/-- An element of the page; `id` is empty for an element without identifier. -/
structure Element where
  id : String
  classes : List String
  onclick : Option String
  style : List (String × String)
deriving DecidableEq

/-- The elements of the page and the `innerHTML` of `#history-content`. -/
structure Page where
  elements : List Element
  historyContent : String
deriving DecidableEq

/-- The method `classList.contains`. -/
def Element.hasClass (e : Element) (c : String) : Bool :=
  decide (c ∈ e.classes)

/-- The markup written by `loadHistory()`, without the line breaks and the indentation of
the template. -/
def historyPlaceholder : String :=
  "<div class=\"text-center py-12\"><div class=\"text-red-400 text-6xl mb-4\"><i class=\"fas fa-plug\"></i></div><h3 class=\"text-lg font-semibold text-gray-900 mb-2\">Backend no conectado</h3><p class=\"text-gray-600\">El historial requiere que el backend esté ejecutándose.<br>Inicia el servidor backend en <code class=\"bg-gray-100 px-2 py-1 rounded\">http://localhost:5000</code></p></div>"

/-- The method `loadHistory()`. -/
def loadHistory (page : Page) : Page :=
  { page with historyContent := historyPlaceholder }

/-- The first loop of `showTab`, on one `.tab-content` element. -/
def hideTab (tab : Element) : Element :=
  { tab with classes := classAdd tab.classes "hidden" }

/-- The second loop of `showTab`, on one `.tab-btn` element. -/
def deactivateBtn (btn : Element) : Element :=
  let classes := classRemove btn.classes "active"
  let classes := classRemove (classRemove classes "border-white") "text-white"
  let classes := classAdd (classAdd classes "border-transparent") "text-teal-100"
  { btn with
    classes := classes
    style := btn.style.filter (fun d =>
      d.1 != "border-bottom-color" && d.1 != "border-bottom-width" &&
      d.1 != "border-bottom-style" && d.1 != "color") }

/-- What `showTab` does to the element found for the target panel. -/
def revealTab (targetTab : Element) : Element :=
  { targetTab with classes := classRemove targetTab.classes "hidden" }

/-- What `showTab` does to the element found for the trigger. -/
def activateBtn (activeBtn : Element) : Element :=
  let classes := classAdd activeBtn.classes "active"
  let classes := classRemove (classRemove classes "border-transparent") "text-teal-100"
  let classes := classAdd (classAdd classes "border-white") "text-white"
  { activeBtn with classes := classes }

/-- A change made to the first element, in document order, that a lookup finds: the element
returned by `getElementById` or by `querySelector`. Nothing changes when there is none. -/
def modifyFirst (p : Element → Bool) (f : Element → Element) : List Element → List Element
  | [] => []
  | e :: rest => if p e then f e :: rest else e :: modifyFirst p f rest

/-- The value that the selector of `showTab` asks of the `onclick` attribute. -/
def triggerOnclick (tabName : String) : String :=
  "showTab('" ++ tabName ++ "')"

/-- Tab names for which the selector built by `showTab` is the attribute test for
`triggerOnclick`: no double quote, no backslash and no line break in the name. -/
def selectorSafe (tabName : String) : Bool :=
  tabName.data.all (fun c =>
    c.toNat != 0x22 && c.toNat != 0x5C && c.toNat != 0x0A && c.toNat != 0x0C && c.toNat != 0x0D)

/-- The function `showTab(tabName)`, for a tab name that is `selectorSafe`. -/
def showTab (page : Page) (tabName : String) : Page :=
  let elements := page.elements.map (fun e => if e.hasClass "tab-content" then hideTab e else e)
  let elements := elements.map (fun e => if e.hasClass "tab-btn" then deactivateBtn e else e)
  let elements := modifyFirst (fun e => e.id == tabName ++ "-tab") revealTab elements
  let elements :=
    modifyFirst (fun e => e.onclick == some (triggerOnclick tabName)) activateBtn elements
  let page := { page with elements := elements }
  if tabName = "history" then loadHistory page else page

/-- A panel that is shown: a `.tab-content` element without the class `hidden`. -/
def Element.isVisiblePanel (e : Element) : Bool :=
  e.hasClass "tab-content" && !e.hasClass "hidden"

/-- A trigger with the active styling: a `.tab-btn` element with the class `active`. -/
def Element.isActiveBtn (e : Element) : Bool :=
  e.hasClass "tab-btn" && e.hasClass "active"

/-- The two loops of `showTab` as they act on one element. -/
def afterLoops (e : Element) : Element :=
  if (if e.hasClass "tab-content" then hideTab e else e).hasClass "tab-btn" then
    deactivateBtn (if e.hasClass "tab-content" then hideTab e else e)
  else (if e.hasClass "tab-content" then hideTab e else e)

/-! ## Sample inputs -/

/-- A state used to run the methods on concrete inputs: the page as first loaded, with the
welcome block in the transcript and a conversation `c-1` already stored. -/
def sampleState : State :=
  { apiBase := "http://localhost:5000"
    currentConversationId := some "c-1"
    currentImage := none
    welcomeCleared := false
    messageInput := "  \n "
    charCount := some "4"
    sendBtn := { disabled := false, innerHTML := sendIdleLabel }
    analyzeBtn := { disabled := true, innerHTML := analyzeIdleLabel }
    imageInput := ""
    dropZoneContent := []
    imagePreview := ["hidden"]
    previewImg := ""
    imageName := ""
    loadingOverlay := ["hidden"]
    chatMessages := [ChatChild.welcome]
    notifications := []
    requests := []
    reads := []
    timeouts := [] }

/-- A reply with a diagnosis and a confidence of 0.85, the double nearest to it. -/
def sampleReply : BackendResponse :=
  { diagnosis := some "X"
    response := none
    confidence := some (7656119366529843 / 9007199254740992)
    recommendations := some ["A", "B"]
    conversation_id := some "c-2" }

/-- A state with a message typed into the input. -/
def sampleTyped : State :=
  { sampleState with messageInput := " Me duele la cabeza " }

/-- A reply whose `diagnosis` and `conversation_id` are present and empty. -/
def sampleEmptyFields : BackendResponse :=
  { diagnosis := some ""
    response := some "R"
    confidence := none
    recommendations := none
    conversation_id := some "" }

/-- A page with the panels and the triggers of two tabs, the first one shown. -/
def samplePage : Page :=
  { elements :=
      [{ id := "", classes := ["tab-btn", "active", "border-white", "text-white"],
         onclick := some "showTab('chat')", style := [] },
       { id := "", classes := ["tab-btn", "border-transparent", "text-teal-100"],
         onclick := some "showTab('history')", style := [] },
       { id := "chat-tab", classes := ["tab-content"], onclick := none, style := [] },
       { id := "history-tab", classes := ["tab-content", "hidden"], onclick := none,
         style := [] }]
    historyContent := "" }

/-- A reply whose one recommendation holds markup. -/
def sampleMarkupReply : BackendResponse :=
  { diagnosis := some "X"
    response := none
    confidence := none
    recommendations := some ["A</li><li>B"]
    conversation_id := none }

/-- A reply whose confidence is present and equal to 0. -/
def sampleZeroConfidence : BackendResponse :=
  { diagnosis := some "X"
    response := none
    confidence := some 0
    recommendations := none
    conversation_id := none }

/-- A reply whose confidence is 1. -/
def sampleFullConfidence : BackendResponse :=
  { diagnosis := some "X"
    response := none
    confidence := some 1
    recommendations := none
    conversation_id := none }

/-- A state with an image staged by a finished preview read, a conversation stored and the
welcome block already dismissed. -/
def sampleStaged : State :=
  { sampleState with
    currentImage := some { name := "rx.png", type := "image/png", size := 2048 }
    welcomeCleared := true
    messageInput := ""
    analyzeBtn := { disabled := false, innerHTML := analyzeIdleLabel }
    dropZoneContent := ["hidden"]
    imagePreview := []
    previewImg := "data:image/png;base64,AAAA"
    imageName := "rx.png"
    chatMessages := [] }

/-! ## Input guards -/

theorem trimChars_eq_nil_iff (l : List Char) :
    trimChars l = [] ↔ ∀ c ∈ l, isTrimmable c = true := by
  unfold trimChars
  rw [List.reverse_eq_nil_iff, List.dropWhile_eq_nil_iff]
  constructor
  · intro h
    have h2 : l.dropWhile isTrimmable = [] := by
      cases hd : l.dropWhile isTrimmable with
      | nil => rfl
      | cons a t =>
        have hfalse := List.head_dropWhile_not isTrimmable l (by rw [hd]; simp)
        have ha : isTrimmable a = true := h a (by rw [hd]; simp)
        simp [hd] at hfalse
        rw [ha] at hfalse
        cases hfalse
    exact List.dropWhile_eq_nil_iff.mp h2
  · intro h c hc
    rw [List.dropWhile_eq_nil_iff.mpr h] at hc
    cases hc

/-- The trimmed text is empty exactly for an input made of trimmable characters only. -/
theorem trim_eq_empty_iff (s : String) :
    trim s = "" ↔ ∀ c ∈ s.data, isTrimmable c = true := by
  rw [← trimChars_eq_nil_iff]
  unfold trim
  constructor
  · intro h
    exact congrArg String.data h
  · intro h
    rw [h]

/-- C1. With an input whose trimmed text is empty, `sendMessage` only shows one warning: no
request is issued, the transcript, the send button and the conversation state stay as they
were. With no staged image, `analyzeImage` only shows one warning: no request is issued, the
transcript, the analyze button and the loading overlay stay as they were. -/
theorem guards_abort_with_warning (s : State) (timeSent timeReply : String)
    (outcome : FetchOutcome) :
    (trim s.messageInput = "" →
      sendMessage s timeSent timeReply outcome =
        { s with notifications := s.notifications ++
            [{ message := "Por favor, escribe un mensaje", type := Severity.warning }] } ∧
      (sendMessage s timeSent timeReply outcome).requests = s.requests ∧
      (sendMessage s timeSent timeReply outcome).chatMessages = s.chatMessages ∧
      (sendMessage s timeSent timeReply outcome).sendBtn = s.sendBtn ∧
      (sendMessage s timeSent timeReply outcome).currentConversationId =
        s.currentConversationId ∧
      (sendMessage s timeSent timeReply outcome).currentImage = s.currentImage ∧
      (sendMessage s timeSent timeReply outcome).welcomeCleared = s.welcomeCleared) ∧
    (s.currentImage = none →
      analyzeImage s timeSent timeReply outcome =
        { s with notifications := s.notifications ++
            [{ message := "Por favor, selecciona una imagen primero",
               type := Severity.warning }] } ∧
      (analyzeImage s timeSent timeReply outcome).requests = s.requests ∧
      (analyzeImage s timeSent timeReply outcome).chatMessages = s.chatMessages ∧
      (analyzeImage s timeSent timeReply outcome).analyzeBtn = s.analyzeBtn ∧
      (analyzeImage s timeSent timeReply outcome).loadingOverlay = s.loadingOverlay) := by
  constructor
  · intro h
    have e : sendMessage s timeSent timeReply outcome =
        showNotification s "Por favor, escribe un mensaje" Severity.warning := by
      unfold sendMessage
      simp only [h, if_true]
    rw [e]
    exact ⟨rfl, rfl, rfl, rfl, rfl, rfl, rfl⟩
  · intro h
    have e : analyzeImage s timeSent timeReply outcome =
        showNotification s "Por favor, selecciona una imagen primero" Severity.warning := by
      unfold analyzeImage
      rw [h]
    rw [e]
    exact ⟨rfl, rfl, rfl, rfl, rfl⟩

theorem guards_abort_with_warning_witness :
    (trim sampleState.messageInput = "" ∧ sampleState.currentImage = none) ∧
    (sendMessage sampleState "10:00" "10:01" (FetchOutcome.rejected "Failed to fetch")).requests
      = [] ∧
    (analyzeImage sampleState "10:00" "10:01" (FetchOutcome.rejected "Failed to fetch")).requests
      = [] :=
  ⟨⟨by decide, rfl⟩,
   ((guards_abort_with_warning sampleState "10:00" "10:01"
      (FetchOutcome.rejected "Failed to fetch")).1 (by decide)).2.1,
   ((guards_abort_with_warning sampleState "10:00" "10:01"
      (FetchOutcome.rejected "Failed to fetch")).2 rfl).2.1⟩

/-- C2. `handleImageUpload(file)` rejects the file (starts no preview read) exactly when its
type does not start with `image/` or its size is above 10 MiB; a rejected file gives one
notification of severity `error` and changes nothing else; any other file, one of exactly
10 MiB included, has its preview read started. -/
theorem handleImageUpload_rejects_iff (s : State) (file : File) :
    ((handleImageUpload s file).reads = s.reads ↔
      (startsWith file.type "image/" = false ∨ file.size > 10 * 1024 * 1024)) ∧
    ((startsWith file.type "image/" = false ∨ file.size > 10 * 1024 * 1024) →
      ∃ message, handleImageUpload s file =
        { s with notifications := s.notifications ++
            [{ message := message, type := Severity.error }] }) ∧
    (¬ (startsWith file.type "image/" = false ∨ file.size > 10 * 1024 * 1024) →
      handleImageUpload s file = { s with reads := s.reads ++ [file] }) ∧
    (startsWith file.type "image/" = true → file.size = 10 * 1024 * 1024 →
      handleImageUpload s file = { s with reads := s.reads ++ [file] }) := by
  have hbad : (startsWith file.type "image/" = false ∨ file.size > 10 * 1024 * 1024) →
      ∃ message, handleImageUpload s file =
        { s with notifications := s.notifications ++
            [{ message := message, type := Severity.error }] } := by
    intro h
    unfold handleImageUpload
    by_cases ht : startsWith file.type "image/" = true
    · have hs : file.size > 10 * 1024 * 1024 := by
        rcases h with h | h
        · rw [ht] at h
          cases h
        · exact h
      refine ⟨"La imagen es demasiado grande. Máximo 10MB.", ?_⟩
      simp [ht, hs, showNotification]
    · refine ⟨"Por favor, selecciona un archivo de imagen válido", ?_⟩
      simp [ht, showNotification]
  have hgood : ¬ (startsWith file.type "image/" = false ∨ file.size > 10 * 1024 * 1024) →
      handleImageUpload s file = { s with reads := s.reads ++ [file] } := by
    intro h
    have ht : startsWith file.type "image/" = true := by
      cases hv : startsWith file.type "image/"
      · exact absurd (Or.inl hv) h
      · rfl
    have hs : ¬ file.size > 10 * 1024 * 1024 := fun hv => h (Or.inr hv)
    unfold handleImageUpload
    simp [ht, hs]
  refine ⟨?_, hbad, hgood, ?_⟩
  · constructor
    · intro h
      by_contra hn
      rw [hgood hn] at h
      have hl := congrArg List.length h
      simp at hl
    · intro h
      obtain ⟨message, hm⟩ := hbad h
      rw [hm]
  · intro ht hs
    apply hgood
    rintro (h | h)
    · rw [ht] at h
      cases h
    · omega

theorem handleImageUpload_rejects_iff_witness :
    (startsWith "text/plain" "image/" = false ∨ 5 > 10 * 1024 * 1024) ∧
    (handleImageUpload sampleState { name := "a.txt", type := "text/plain", size := 5 }).reads =
      sampleState.reads :=
  ⟨Or.inl (by decide),
   (handleImageUpload_rejects_iff sampleState
      { name := "a.txt", type := "text/plain", size := 5 }).1.mpr (Or.inl (by decide))⟩

/-! ## Rendering of an assistant turn -/

theorem mathRound_iff (x : ℚ) (n : Int) :
    mathRound x = n ↔ (n : ℚ) - 1 / 2 ≤ x ∧ x < n + 1 / 2 := by
  unfold mathRound
  rw [Int.floor_eq_iff]
  constructor <;> rintro ⟨h1, h2⟩ <;> constructor <;> linarith

theorem Rounded.ge_mono (p : Rounded) : p.ge 60 = false → p.ge 80 = false := by
  cases p with
  | int n =>
    simp only [Rounded.ge, decide_eq_false_iff_not, not_le]
    intro h
    omega
  | infinity negative => exact id

theorem intToString_percent (n : Int) (h0 : 0 ≤ n) (h1 : n ≤ 100) :
    intToString n = toString n := by
  interval_cases n <;> decide

theorem bitLengthAux_zero (fuel : Nat) : bitLengthAux fuel 0 = 0 := by
  cases fuel <;> simp [bitLengthAux]

theorem bitLengthAux_spec :
    ∀ (fuel n : Nat), n ≤ fuel →
      n < 2 ^ bitLengthAux fuel n ∧ (0 < n → 2 ^ (bitLengthAux fuel n - 1) ≤ n)
  | 0, n, h => by
    have hn : n = 0 := Nat.le_zero.mp h
    subst hn
    simp [bitLengthAux]
  | fuel + 1, n, h => by
    by_cases hn : n = 0
    · subst hn
      simp [bitLengthAux]
    · have hhalf : n / 2 ≤ fuel := by omega
      obtain ⟨hup, hlow⟩ := bitLengthAux_spec fuel (n / 2) hhalf
      simp only [bitLengthAux, if_neg hn, Nat.add_sub_cancel]
      constructor
      · rw [pow_succ]
        omega
      · intro _
        by_cases h2 : n / 2 = 0
        · rw [h2, bitLengthAux_zero]
          simp
          omega
        · have hpos : 0 < n / 2 := Nat.pos_of_ne_zero h2
          have hl := hlow hpos
          have hk : bitLengthAux fuel (n / 2) ≠ 0 := by
            intro h0
            rw [h0] at hup
            simp at hup
            exact h2 hup
          obtain ⟨k, hk'⟩ := Nat.exists_eq_succ_of_ne_zero hk
          rw [hk'] at hl ⊢
          simp only [Nat.succ_sub_one] at hl
          rw [pow_succ]
          omega

/-- The binary digits of a positive number: `2^(k-1) ≤ n < 2^k` for `k = bitLength n`. -/
theorem bitLength_spec (n : Nat) (hn : 0 < n) :
    2 ^ (bitLength n - 1) ≤ n ∧ n < 2 ^ bitLength n :=
  ⟨(bitLengthAux_spec n n (le_refl n)).2 hn, (bitLengthAux_spec n n (le_refl n)).1⟩

/-- The integer that `roundHalfEven` gives is within one half of the ratio. -/
theorem roundHalfEven_near (n d : Nat) (hd : 0 < d) :
    2 * n ≤ 2 * d * roundHalfEven n d + d ∧ 2 * d * roundHalfEven n d ≤ 2 * n + d := by
  have hdm := Nat.div_add_mod n d
  have hr := Nat.mod_lt n hd
  have e1 : 2 * d * (n / d) = 2 * (d * (n / d)) := by ring
  have e2 : 2 * d * (n / d + 1) = 2 * (d * (n / d)) + 2 * d := by ring
  unfold roundHalfEven
  simp only
  split_ifs <;> (try rw [e2]) <;> (try rw [e1]) <;> omega

theorem roundHalfEven_error (n d : Nat) (hd : 0 < d) :
    |(roundHalfEven n d : ℚ) - (n : ℚ) / (d : ℚ)| ≤ 1 / 2 := by
  obtain ⟨h1, h2⟩ := roundHalfEven_near n d hd
  have hdq : (0 : ℚ) < (d : ℚ) := by exact_mod_cast hd
  have h1q : (2 : ℚ) * n ≤ 2 * d * roundHalfEven n d + d := by exact_mod_cast h1
  have h2q : (2 : ℚ) * d * roundHalfEven n d ≤ 2 * n + d := by exact_mod_cast h2
  rw [abs_le]
  constructor
  · rw [neg_le_sub_iff_le_add, div_le_iff₀ hdq]
    nlinarith
  · rw [sub_le_comm, le_div_iff₀ hdq]
    nlinarith

theorem zpow_of_nonneg (e : Int) (h : 0 ≤ e) : (2 : ℚ) ^ e = ((2 ^ e.toNat : ℕ) : ℚ) := by
  conv_lhs => rw [← Int.toNat_of_nonneg h]
  rw [zpow_natCast]
  push_cast
  rfl

theorem zpow_of_neg (e : Int) (h : e < 0) : (2 : ℚ) ^ e = 1 / ((2 ^ (-e).toNat : ℕ) : ℚ) := by
  have h2 : e = -(((-e).toNat : ℕ) : ℤ) := by
    rw [Int.toNat_of_nonneg (by omega)]
    omega
  conv_lhs => rw [h2]
  rw [zpow_neg, zpow_natCast]
  push_cast
  rw [one_div]

theorem doubleOfRatio_some (n d m : Nat) (e : Int) (h : doubleOfRatio n d = some (m, e)) :
    e = doubleExponent n d ∧ m = doubleMantissa n d e := by
  unfold doubleOfRatio at h
  simp only at h
  split_ifs at h
  obtain ⟨hm, he⟩ := Prod.mk.inj (Option.some.inj h)
  exact ⟨he.symm, by rw [← he, hm]⟩

/-- The mantissa times `2^e` is within half of `2^e` of the ratio. -/
theorem doubleMantissa_error (n d : Nat) (e : Int) (hd : 0 < d) :
    |(doubleMantissa n d e : ℚ) * 2 ^ e - (n : ℚ) / (d : ℚ)| ≤ 2 ^ e / 2 := by
  have hdq : (0 : ℚ) < (d : ℚ) := by exact_mod_cast hd
  have hp : (0 : ℚ) < 2 ^ e := by positivity
  unfold doubleMantissa
  by_cases he : 0 ≤ e
  · rw [if_pos he]
    have hk : (0 : ℚ) < ((2 ^ e.toNat : ℕ) : ℚ) := by positivity
    have herr := roundHalfEven_error n (d * 2 ^ e.toNat) (by positivity)
    rw [zpow_of_nonneg e he]
    have hcast : (((d * 2 ^ e.toNat : ℕ)) : ℚ) = (d : ℚ) * ((2 ^ e.toNat : ℕ) : ℚ) := by
      push_cast
      ring
    rw [hcast] at herr
    have hrw : (roundHalfEven n (d * 2 ^ e.toNat) : ℚ) * ((2 ^ e.toNat : ℕ) : ℚ) -
        (n : ℚ) / (d : ℚ) =
        ((roundHalfEven n (d * 2 ^ e.toNat) : ℚ) -
          (n : ℚ) / ((d : ℚ) * ((2 ^ e.toNat : ℕ) : ℚ))) * ((2 ^ e.toNat : ℕ) : ℚ) := by
      field_simp
      ring
    rw [hrw, abs_mul, abs_of_pos hk]
    calc |(roundHalfEven n (d * 2 ^ e.toNat) : ℚ) -
          (n : ℚ) / ((d : ℚ) * ((2 ^ e.toNat : ℕ) : ℚ))| * ((2 ^ e.toNat : ℕ) : ℚ)
        ≤ 1 / 2 * ((2 ^ e.toNat : ℕ) : ℚ) := mul_le_mul_of_nonneg_right herr (le_of_lt hk)
      _ = ((2 ^ e.toNat : ℕ) : ℚ) / 2 := by ring
  · rw [if_neg he]
    have he' : e < 0 := not_le.mp he
    have hk : (0 : ℚ) < ((2 ^ (-e).toNat : ℕ) : ℚ) := by positivity
    have herr := roundHalfEven_error (n * 2 ^ (-e).toNat) d hd
    rw [zpow_of_neg e he']
    have hcast : (((n * 2 ^ (-e).toNat : ℕ)) : ℚ) = (n : ℚ) * ((2 ^ (-e).toNat : ℕ) : ℚ) := by
      push_cast
      ring
    rw [hcast] at herr
    have hrw : (roundHalfEven (n * 2 ^ (-e).toNat) d : ℚ) * (1 / ((2 ^ (-e).toNat : ℕ) : ℚ)) -
        (n : ℚ) / (d : ℚ) =
        ((roundHalfEven (n * 2 ^ (-e).toNat) d : ℚ) -
          (n : ℚ) * ((2 ^ (-e).toNat : ℕ) : ℚ) / (d : ℚ)) * (1 / ((2 ^ (-e).toNat : ℕ) : ℚ)) := by
      field_simp
      ring
    rw [hrw, abs_mul, abs_of_pos (by positivity : (0 : ℚ) < 1 / ((2 ^ (-e).toNat : ℕ) : ℚ))]
    calc |(roundHalfEven (n * 2 ^ (-e).toNat) d : ℚ) -
          (n : ℚ) * ((2 ^ (-e).toNat : ℕ) : ℚ) / (d : ℚ)| * (1 / ((2 ^ (-e).toNat : ℕ) : ℚ))
        ≤ 1 / 2 * (1 / ((2 ^ (-e).toNat : ℕ) : ℚ)) :=
          mul_le_mul_of_nonneg_right herr (by positivity)
      _ = 1 / ((2 ^ (-e).toNat : ℕ) : ℚ) / 2 := by ring

/-- The exponent is `-1074`, or the ratio reaches `2^(e + 52)`. -/
theorem doubleExponent_spec (n d : Nat) (hn : 0 < n) (hd : 0 < d) :
    doubleExponent n d = -1074 ∨ (2 : ℚ) ^ (doubleExponent n d + 52) ≤ (n : ℚ) / (d : ℚ) := by
  have hdq : (0 : ℚ) < (d : ℚ) := by exact_mod_cast hd
  have hnq : (0 : ℚ) < (n : ℚ) := by exact_mod_cast hn
  obtain ⟨hnl, _⟩ := bitLength_spec n hn
  obtain ⟨_, hdu⟩ := bitLength_spec d hd
  have hbn : 0 < bitLength n := by
    by_contra h0
    have h00 : bitLength n = 0 := by omega
    have := (bitLength_spec n hn).2
    rw [h00] at this
    omega
  have key : ∀ e0 : Int, (2 : ℚ) ^ (e0 + 52) ≤ (n : ℚ) / (d : ℚ) →
      max e0 (-1074) = -1074 ∨ (2 : ℚ) ^ (max e0 (-1074) + 52) ≤ (n : ℚ) / (d : ℚ) := by
    intro e0 h
    by_cases hle : e0 ≤ -1074
    · exact Or.inl (max_eq_right hle)
    · rw [max_eq_left (le_of_lt (not_le.mp hle))]
      exact Or.inr h
  unfold doubleExponent
  simp only
  split_ifs with hl hat hat
  · apply key
    have hat' : d * 2 ^ ((bitLength n : Int) - (bitLength d : Int)).toNat ≤ n := by simpa using hat
    have hq : (d : ℚ) * ((2 ^ ((bitLength n : Int) - (bitLength d : Int)).toNat : ℕ) : ℚ) ≤ n := by
      exact_mod_cast hat'
    rw [show (bitLength n : Int) - (bitLength d : Int) - 52 + 52 =
      (bitLength n : Int) - (bitLength d : Int) by ring, zpow_of_nonneg _ hl, le_div_iff₀ hdq]
    linarith
  · apply key
    rw [show (bitLength n : Int) - (bitLength d : Int) - 53 + 52 =
      ((bitLength n - 1 : ℕ) : Int) - (bitLength d : Int) by
        rw [Nat.cast_sub hbn]
        push_cast
        ring]
    rw [zpow_sub₀ (by norm_num : (2 : ℚ) ≠ 0), zpow_natCast, zpow_natCast]
    have h1 : ((2 : ℚ) ^ (bitLength n - 1)) ≤ n := by exact_mod_cast hnl
    have h2 : (d : ℚ) ≤ (2 : ℚ) ^ bitLength d := by exact_mod_cast le_of_lt hdu
    exact div_le_div₀ (le_of_lt hnq) h1 hdq h2
  · apply key
    have hl' : (bitLength n : Int) - (bitLength d : Int) < 0 := not_le.mp hl
    have hat' : d ≤ n * 2 ^ (-((bitLength n : Int) - (bitLength d : Int))).toNat := by
      simpa using hat
    have hq : (d : ℚ) ≤ n * ((2 ^ (-((bitLength n : Int) - (bitLength d : Int))).toNat : ℕ) : ℚ) := by
      exact_mod_cast hat'
    have hk : (0 : ℚ) <
        ((2 ^ (-((bitLength n : Int) - (bitLength d : Int))).toNat : ℕ) : ℚ) := by positivity
    rw [show (bitLength n : Int) - (bitLength d : Int) - 52 + 52 =
      (bitLength n : Int) - (bitLength d : Int) by ring, zpow_of_neg _ hl', le_div_iff₀ hdq,
      div_mul_eq_mul_div, one_mul, div_le_iff₀ hk]
    exact hq
  · apply key
    rw [show (bitLength n : Int) - (bitLength d : Int) - 53 + 52 =
      ((bitLength n - 1 : ℕ) : Int) - (bitLength d : Int) by
        rw [Nat.cast_sub hbn]
        push_cast
        ring]
    rw [zpow_sub₀ (by norm_num : (2 : ℚ) ≠ 0), zpow_natCast, zpow_natCast]
    have h1 : ((2 : ℚ) ^ (bitLength n - 1)) ≤ n := by exact_mod_cast hnl
    have h2 : (d : ℚ) ≤ (2 : ℚ) ^ bitLength d := by exact_mod_cast le_of_lt hdu
    exact div_le_div₀ (le_of_lt hnq) h1 hdq h2

/-- The Number value of a real that is not 0, when it is finite, is within a relative error
of `2^-53` of the real, or within `2^-1075` of it. -/
theorem roundToDouble_error (q x : ℚ) (hq : q ≠ 0) (h : roundToDouble q = JsNumber.finite x) :
    |x - q| ≤ |q| / 2 ^ 53 ∨ |x - q| ≤ 1 / 2 ^ 1075 := by
  have hden : 0 < q.den := q.den_pos
  have hnum : 0 < q.num.natAbs := Int.natAbs_pos.mpr (Rat.num_ne_zero.mpr hq)
  have habs : (q.num.natAbs : ℚ) / (q.den : ℚ) = |q| := by
    conv_rhs => rw [← Rat.num_div_den q]
    rw [abs_div, abs_of_pos (by exact_mod_cast hden : (0 : ℚ) < (q.den : ℚ)),
      Nat.cast_natAbs, Int.cast_abs]
  unfold roundToDouble at h
  rw [if_neg hq] at h
  cases hd : doubleOfRatio q.num.natAbs q.den with
  | none =>
    rw [hd] at h
    cases h
  | some me =>
    obtain ⟨m, e⟩ := me
    rw [hd] at h
    simp only at h
    have hx := JsNumber.finite.inj h
    obtain ⟨he, hm⟩ := doubleOfRatio_some _ _ m e hd
    have herr := doubleMantissa_error q.num.natAbs q.den e hden
    rw [← hm] at herr
    have hdist : |x - q| = |(m : ℚ) * 2 ^ e - (q.num.natAbs : ℚ) / (q.den : ℚ)| := by
      rw [← hx, habs]
      by_cases hneg : q < 0
      · rw [if_pos hneg, abs_of_neg hneg]
        rw [show (-1 : ℚ) * (m : ℚ) * 2 ^ e - q = -((m : ℚ) * 2 ^ e - -q) by ring, abs_neg]
      · rw [if_neg hneg, abs_of_nonneg (not_lt.mp hneg), one_mul]
    rw [hdist]
    rcases doubleExponent_spec q.num.natAbs q.den hnum hden with hsub | hnorm
    · right
      have he2 : e = -1074 := he.trans hsub
      rw [he2] at herr ⊢
      refine le_trans herr (le_of_eq ?_)
      rw [zpow_neg]
      norm_num
    · left
      rw [← he, habs] at hnorm
      refine le_trans herr ?_
      have e1 : (2 : ℚ) ^ e / 2 = 2 ^ (e + 52) / 2 ^ 53 := by
        rw [zpow_add₀ (by norm_num : (2 : ℚ) ≠ 0)]
        norm_num
        ring
      rw [e1]
      apply div_le_div_of_nonneg_right hnorm
      positivity

/-- A ratio of at most 100 has a finite double. -/
theorem doubleOfRatio_finite (n d : Nat) (hn : 0 < n) (hd : 0 < d) (hle : n ≤ 100 * d) :
    ∃ m e, doubleOfRatio n d = some (m, e) := by
  obtain ⟨hnl, _⟩ := bitLength_spec n hn
  obtain ⟨_, hdu⟩ := bitLength_spec d hd
  have hlt : 2 ^ (bitLength n - 1) < 2 ^ (bitLength d + 7) := by
    have h128 : 2 ^ (bitLength d + 7) = 128 * 2 ^ bitLength d := by
      rw [pow_add]
      norm_num
      ring
    omega
  have hb : bitLength n - 1 < bitLength d + 7 :=
    (Nat.pow_lt_pow_iff_right (by norm_num : 1 < 2)).mp hlt
  have hl : (bitLength n : Int) - (bitLength d : Int) ≤ 7 := by omega
  have he : doubleExponent n d ≤ -45 := by
    unfold doubleExponent
    simp only
    split_ifs <;> exact max_le (by omega) (by norm_num)
  unfold doubleOfRatio
  simp only
  rw [if_neg]
  · exact ⟨_, _, rfl⟩
  · rintro (h | ⟨h, _⟩) <;> omega

/-- For a confidence `c` with `0 < c ≤ 1`, `Math.round(c * 100)` is an integer from 0 to 100
that is within `1/2 + 2^-46` of `100 c`. -/
theorem percent_in_range (c : ℚ) (h0 : 0 < c) (h1 : c ≤ 1) :
    ∃ p : Int, 0 ≤ p ∧ p ≤ 100 ∧ (numberMul c 100).round = Rounded.int p ∧
      |(p : ℚ) - c * 100| ≤ 1 / 2 + 1 / 2 ^ 46 := by
  have hq0 : (0 : ℚ) < c * 100 := by positivity
  have hq1 : c * 100 ≤ 100 := by linarith
  have hden : 0 < (c * 100).den := (c * 100).den_pos
  have hnum : 0 < (c * 100).num.natAbs :=
    Int.natAbs_pos.mpr (Rat.num_ne_zero.mpr (ne_of_gt hq0))
  have hratio : ((c * 100).num.natAbs : ℚ) / ((c * 100).den : ℚ) = c * 100 := by
    rw [Nat.cast_natAbs, Int.cast_abs, abs_of_pos (by exact_mod_cast Rat.num_pos.mpr hq0)]
    exact Rat.num_div_den _
  have hle : (c * 100).num.natAbs ≤ 100 * (c * 100).den := by
    have hdq : (0 : ℚ) < ((c * 100).den : ℚ) := by exact_mod_cast hden
    have : ((c * 100).num.natAbs : ℚ) ≤ 100 * ((c * 100).den : ℚ) := by
      rw [← div_le_iff₀ hdq, hratio]
      exact hq1
    exact_mod_cast this
  obtain ⟨m, e, hme⟩ := doubleOfRatio_finite _ _ hnum hden hle
  have hfin : numberMul c 100 = JsNumber.finite ((m : ℚ) * 2 ^ e) := by
    unfold numberMul roundToDouble
    rw [if_neg (ne_of_gt hq0), hme]
    simp only [if_neg (not_lt.mpr (le_of_lt hq0)), one_mul]
  have herr := roundToDouble_error (c * 100) _ (ne_of_gt hq0) hfin
  rw [abs_of_pos hq0] at herr
  have hsmall : |(m : ℚ) * 2 ^ e - c * 100| ≤ 1 / 2 ^ 46 := by
    rcases herr with h | h
    · refine le_trans h ?_
      rw [div_le_iff₀ (by positivity)]
      norm_num
      linarith
    · refine le_trans h ?_
      apply one_div_le_one_div_of_le (by positivity)
      exact pow_le_pow_right₀ (by norm_num) (by norm_num)
  obtain ⟨hlo, hhi⟩ := abs_le.mp hsmall
  have hround := (mathRound_iff ((m : ℚ) * 2 ^ e) (mathRound ((m : ℚ) * 2 ^ e))).mp rfl
  have hp46 : (1 : ℚ) / 2 ^ 46 < 1 / 2 := by norm_num
  refine ⟨mathRound ((m : ℚ) * 2 ^ e), ?_, ?_, by rw [hfin]; rfl, ?_⟩
  · have : (-1 : ℚ) < (mathRound ((m : ℚ) * 2 ^ e) : ℚ) := by linarith [hround.2]
    have h' : (-1 : Int) < mathRound ((m : ℚ) * 2 ^ e) := by exact_mod_cast this
    omega
  · have : (mathRound ((m : ℚ) * 2 ^ e) : ℚ) < 101 := by linarith [hround.1]
    have h' : mathRound ((m : ℚ) * 2 ^ e) < 101 := by exact_mod_cast this
    omega
  · rw [abs_le]
    constructor <;> linarith [hround.1, hround.2]

/-- The Number value of a positive ratio in lowest terms. -/
theorem roundToDouble_ratio (n d m : Nat) (e : Int) (hn : 0 < n) (hd : 0 < d)
    (hcop : Nat.Coprime n d) (h : doubleOfRatio n d = some (m, e)) :
    roundToDouble ((n : ℚ) / (d : ℚ)) = JsNumber.finite ((m : ℚ) * 2 ^ e) := by
  have hpos : (0 : ℚ) < (n : ℚ) / (d : ℚ) := by positivity
  have hnum : ((n : ℚ) / (d : ℚ)).num = (n : ℤ) := by
    have := Rat.num_div_eq_of_coprime (a := (n : ℤ)) (b := (d : ℤ)) (by exact_mod_cast hd)
      (by simpa using hcop)
    simpa using this
  have hden : ((n : ℚ) / (d : ℚ)).den = d := by
    have := Rat.den_div_eq_of_coprime (a := (n : ℤ)) (b := (d : ℤ)) (by exact_mod_cast hd)
      (by simpa using hcop)
    rw [Int.cast_natCast, Int.cast_natCast] at this
    exact Int.natCast_inj.mp this
  unfold roundToDouble
  rw [if_neg (ne_of_gt hpos), hnum, hden]
  simp only [Int.natAbs_ofNat, h, if_neg (not_lt.mpr (le_of_lt hpos)), one_mul]

/-- The Number value of a positive ratio in lowest terms that is beyond the doubles. -/
theorem roundToDouble_overflow (n d : Nat) (hn : 0 < n) (hd : 0 < d)
    (hcop : Nat.Coprime n d) (h : doubleOfRatio n d = none) :
    roundToDouble ((n : ℚ) / (d : ℚ)) = JsNumber.infinity false := by
  have hpos : (0 : ℚ) < (n : ℚ) / (d : ℚ) := by positivity
  have hnum : ((n : ℚ) / (d : ℚ)).num = (n : ℤ) := by
    have := Rat.num_div_eq_of_coprime (a := (n : ℤ)) (b := (d : ℤ)) (by exact_mod_cast hd)
      (by simpa using hcop)
    simpa using this
  have hden : ((n : ℚ) / (d : ℚ)).den = d := by
    have := Rat.den_div_eq_of_coprime (a := (n : ℤ)) (b := (d : ℤ)) (by exact_mod_cast hd)
      (by simpa using hcop)
    rw [Int.cast_natCast, Int.cast_natCast] at this
    exact Int.natCast_inj.mp this
  unfold roundToDouble
  rw [if_neg (ne_of_gt hpos), hnum, hden]
  simp only [Int.natAbs_ofNat, h, decide_eq_false_iff_not, not_lt]
  exact congrArg JsNumber.infinity (decide_eq_false (not_lt.mpr (le_of_lt hpos)))

/-- The value of `Math.round` of a finite product. -/
theorem round_of_product (c x : ℚ) (n : Int) (hx : numberMul c 100 = JsNumber.finite x)
    (hn : (n : ℚ) - 1 / 2 ≤ x ∧ x < n + 1 / 2) :
    (numberMul c 100).round = Rounded.int n := by
  rw [hx]
  exact congrArg Rounded.int ((mathRound_iff x n).mpr hn)

set_option maxRecDepth 100000 in
set_option exponentiation.threshold 1100 in
theorem sample_products :
    roundToDouble (85 / 100) = JsNumber.finite (7656119366529843 / 9007199254740992) ∧
    numberMul (7656119366529843 / 9007199254740992) 100 = JsNumber.finite 85 ∧
    numberMul (447545212969943 / 562949953421312) 100 = JsNumber.finite (159 / 2) ∧
    numberMul (2589569785738035 / 4503599627370496) 100 =
      JsNumber.finite (8092405580431359 / 140737488355328) ∧
    numberMul (2679641778285445 / 4503599627370496) 100 = JsNumber.finite (119 / 2) ∧
    numberMul 10000000000000000000 100 = JsNumber.finite 1000000000000000000000 ∧
    numberMul (562949953421313 / 1125899906842624) 100 =
      JsNumber.finite (1759218604441603 / 35184372088832) ∧
    numberMul (562949953421315 / 1125899906842624) 100 =
      JsNumber.finite (3518437208883219 / 70368744177664) ∧
    numberMul (2 ^ 1020) 100 = JsNumber.infinity false := by
  refine ⟨?_, ?_, ?_, ?_, ?_, ?_, ?_, ?_, ?_⟩
  · have hq : (85 / 100 : ℚ) = ((17 : ℕ) : ℚ) / ((20 : ℕ) : ℚ) := by norm_num
    rw [hq, roundToDouble_ratio 17 20 7656119366529843 (-53) (by decide) (by decide)
      (by norm_num) (by decide)]
    norm_num
  · have hq : (7656119366529843 / 9007199254740992 : ℚ) * 100 =
        ((191402984163246075 : ℕ) : ℚ) / ((2251799813685248 : ℕ) : ℚ) := by norm_num
    rw [numberMul, hq, roundToDouble_ratio 191402984163246075 2251799813685248
      5981343255101440 (-46) (by decide) (by decide) (by norm_num) (by decide)]
    norm_num
  · have hq : (447545212969943 / 562949953421312 : ℚ) * 100 =
        ((11188630324248575 : ℕ) : ℚ) / ((140737488355328 : ℕ) : ℚ) := by norm_num
    rw [numberMul, hq, roundToDouble_ratio 11188630324248575 140737488355328
      5594315162124288 (-46) (by decide) (by decide) (by norm_num) (by decide)]
    norm_num
  · have hq : (2589569785738035 / 4503599627370496 : ℚ) * 100 =
        ((64739244643450875 : ℕ) : ℚ) / ((1125899906842624 : ℕ) : ℚ) := by norm_num
    rw [numberMul, hq, roundToDouble_ratio 64739244643450875 1125899906842624
      8092405580431359 (-47) (by decide) (by decide) (by norm_num) (by decide)]
    norm_num
  · have hq : (2679641778285445 / 4503599627370496 : ℚ) * 100 =
        ((66991044457136125 : ℕ) : ℚ) / ((1125899906842624 : ℕ) : ℚ) := by norm_num
    rw [numberMul, hq, roundToDouble_ratio 66991044457136125 1125899906842624
      8373880557142016 (-47) (by decide) (by decide) (by norm_num) (by decide)]
    norm_num
  · have hq : (10000000000000000000 : ℚ) * 100 =
        ((1000000000000000000000 : ℕ) : ℚ) / ((1 : ℕ) : ℚ) := by norm_num
    rw [numberMul, hq, roundToDouble_ratio 1000000000000000000000 1
      7629394531250000 17 (by decide) (by decide) (by norm_num) (by decide)]
    norm_num
  · have hq : (562949953421313 / 1125899906842624 : ℚ) * 100 =
        ((14073748835532825 : ℕ) : ℚ) / ((281474976710656 : ℕ) : ℚ) := by norm_num
    rw [numberMul, hq, roundToDouble_ratio 14073748835532825 281474976710656
      7036874417766412 (-47) (by decide) (by decide) (by norm_num) (by decide)]
    norm_num
  · have hq : (562949953421315 / 1125899906842624 : ℚ) * 100 =
        ((14073748835532875 : ℕ) : ℚ) / ((281474976710656 : ℕ) : ℚ) := by norm_num
    rw [numberMul, hq, roundToDouble_ratio 14073748835532875 281474976710656
      7036874417766438 (-47) (by decide) (by decide) (by norm_num) (by decide)]
    norm_num
  · have hq : (2 ^ 1020 : ℚ) * 100 = ((2 ^ 1020 * 100 : ℕ) : ℚ) / ((1 : ℕ) : ℚ) := by
      push_cast
      ring
    rw [numberMul, hq, roundToDouble_overflow (2 ^ 1020 * 100) 1 (by positivity) (by decide)
      (Nat.coprime_one_right _) (by decide)]

theorem sample_rounds :
    (numberMul (7656119366529843 / 9007199254740992) 100).round = Rounded.int 85 ∧
    (numberMul (447545212969943 / 562949953421312) 100).round = Rounded.int 80 ∧
    (numberMul (2589569785738035 / 4503599627370496) 100).round = Rounded.int 57 ∧
    (numberMul (2679641778285445 / 4503599627370496) 100).round = Rounded.int 60 ∧
    (numberMul 10000000000000000000 100).round = Rounded.int 1000000000000000000000 :=
  ⟨round_of_product _ _ 85 sample_products.2.1 (by norm_num),
   round_of_product _ _ 80 sample_products.2.2.1 (by norm_num),
   round_of_product _ _ 57 sample_products.2.2.2.1 (by norm_num),
   round_of_product _ _ 60 sample_products.2.2.2.2.1 (by norm_num),
   round_of_product _ _ 1000000000000000000000 sample_products.2.2.2.2.2.1 (by norm_num)⟩

set_option maxRecDepth 100000 in
theorem sample_blocks :
    (confidenceBlock (7656119366529843 / 9007199254740992)) =
      { iconClass := "fas fa-check-circle text-success-500 mr-1"
        textClass := "text-sm font-bold text-success-600"
        text := "85%"
        fillClass := "confidence-fill bg-success-500"
        fillStyle := "width: 85%" } ∧
    (confidenceBlock (447545212969943 / 562949953421312)).text = "80%" ∧
    (confidenceBlock (2589569785738035 / 4503599627370496)).text = "57%" ∧
    (confidenceBlock (2679641778285445 / 4503599627370496)).text = "60%" ∧
    (confidenceBlock 10000000000000000000).text = "1e+21%" ∧
    (confidenceBlock (2 ^ 1020)).text = "Infinity%" := by
  refine ⟨?_, ?_, ?_, ?_, ?_, ?_⟩
  · simp only [confidenceBlock, sample_rounds.1]
    decide
  · simp only [confidenceBlock, sample_rounds.2.1]
    decide
  · simp only [confidenceBlock, sample_rounds.2.2.1]
    decide
  · simp only [confidenceBlock, sample_rounds.2.2.2.1]
    decide
  · simp only [confidenceBlock, sample_rounds.2.2.2.2]
    decide
  · simp only [confidenceBlock, sample_products.2.2.2.2.2.2.2.2]
    decide

theorem confidenceHtml_of_response (time role : String) (content : Option String)
    (r : BackendResponse) (hasImage isImageAnalysis : Bool) :
    (renderMessage time role content (some r) hasImage isImageAnalysis).confidenceHtml =
      if !(role == "user") && truthyNum r.confidence then r.confidence.map confidenceBlock
      else none := by
  rfl

/-- C3. When an assistant turn shows a confidence meter for a confidence `c`, the meter shows
`p%` for `p = Math.round(c * 100)`, the product being the double product of the code, its bar
is `p%` wide, and the icon, the colour of the text and the fill of the bar are those of one
tier, chosen on `p`: `success` with `check-circle` for `p >= 80`, `warning` with
`exclamation-triangle` for `60 <= p < 80`, `danger` with `times-circle` below 60. Here
`Math.round` of a finite `x` is the integer `n` with `n - 1/2 <= x < n + 1/2`, and for
`0 <= p <= 100` the text of `p` is its decimal numeral. A finite product `x` is within
`|100 c| / 2^53` or within `2^-1075` of `100 c`. For a confidence with `0 < c <= 1` the
number `p` is an integer from 0 to 100 within `1/2 + 2^-46` of `100 c`, the meter shows its
decimal numeral, and the tier is `success` for `80 <= p`, `warning` for `60 <= p < 80` and
`danger` for `p < 60`. The reply with diagnosis `X` and confidence 0.85 is rendered with
content `X`, the text `85%` and the tier `success`; the doubles 0.7949999999999999, 0.575 and
0.595 are shown as `80%`, `57%` and `60%`, the first of them having the double product 79.5
with 100 where the exact product rounds to 79; the confidence `1e19` is shown as `1e+21%`
and the confidence `2^1020`, whose product is beyond the doubles, as `Infinity%`. -/
theorem confidence_meter_tier (time : String) (content : Option String) (r : BackendResponse)
    (hasImage isImageAnalysis : Bool) (c : ℚ) (m : ConfidenceHtml)
    (hc : r.confidence = some c)
    (hm : (renderMessage time "assistant" content (some r) hasImage
      isImageAnalysis).confidenceHtml = some m) :
    (m.text = (numberMul c 100).round.toText ++ "%" ∧
     m.fillStyle = "width: " ++ (numberMul c 100).round.toText ++ "%") ∧
    ((numberMul c 100).round.ge 80 = true →
      m.iconClass = "fas fa-check-circle text-success-500 mr-1" ∧
      m.textClass = "text-sm font-bold text-success-600" ∧
      m.fillClass = "confidence-fill bg-success-500") ∧
    ((numberMul c 100).round.ge 60 = true → (numberMul c 100).round.ge 80 = false →
      m.iconClass = "fas fa-exclamation-triangle text-warning-500 mr-1" ∧
      m.textClass = "text-sm font-bold text-warning-600" ∧
      m.fillClass = "confidence-fill bg-warning-500") ∧
    ((numberMul c 100).round.ge 60 = false →
      m.iconClass = "fas fa-times-circle text-danger-500 mr-1" ∧
      m.textClass = "text-sm font-bold text-danger-600" ∧
      m.fillClass = "confidence-fill bg-danger-500") ∧
    ((∀ x : ℚ, numberMul c 100 = JsNumber.finite x →
        (numberMul c 100).round = Rounded.int (mathRound x)) ∧
     (∀ (x : ℚ) (n : Int), mathRound x = n ↔ (n : ℚ) - 1 / 2 ≤ x ∧ x < n + 1 / 2) ∧
     (∀ n k : Int, (Rounded.int n).ge k = true ↔ k ≤ n) ∧
     (∀ n : Int, 0 ≤ n → n ≤ 100 → (Rounded.int n).toText = toString n)) ∧
    (∀ x : ℚ, numberMul c 100 = JsNumber.finite x →
      |x - c * 100| ≤ |c * 100| / 2 ^ 53 ∨ |x - c * 100| ≤ 1 / 2 ^ 1075) ∧
    (0 < c → c ≤ 1 →
      ∃ p : Int, (0 ≤ p ∧ p ≤ 100 ∧ |(p : ℚ) - c * 100| ≤ 1 / 2 + 1 / 2 ^ 46) ∧
        (numberMul c 100).round = Rounded.int p ∧
        (m.text = toString p ++ "%" ∧ m.fillStyle = "width: " ++ toString p ++ "%") ∧
        (80 ≤ p →
          m.iconClass = "fas fa-check-circle text-success-500 mr-1" ∧
          m.textClass = "text-sm font-bold text-success-600" ∧
          m.fillClass = "confidence-fill bg-success-500") ∧
        (60 ≤ p → p < 80 →
          m.iconClass = "fas fa-exclamation-triangle text-warning-500 mr-1" ∧
          m.textClass = "text-sm font-bold text-warning-600" ∧
          m.fillClass = "confidence-fill bg-warning-500") ∧
        (p < 60 →
          m.iconClass = "fas fa-times-circle text-danger-500 mr-1" ∧
          m.textClass = "text-sm font-bold text-danger-600" ∧
          m.fillClass = "confidence-fill bg-danger-500")) ∧
    ((renderMessage time "assistant" (orElse sampleReply.diagnosis sampleReply.response)
        (some sampleReply) false false).content = "X" ∧
     (renderMessage time "assistant" (orElse sampleReply.diagnosis sampleReply.response)
        (some sampleReply) false false).confidenceHtml =
      some { iconClass := "fas fa-check-circle text-success-500 mr-1"
             textClass := "text-sm font-bold text-success-600"
             text := "85%"
             fillClass := "confidence-fill bg-success-500"
             fillStyle := "width: 85%" }) ∧
    ((confidenceBlock (447545212969943 / 562949953421312)).text = "80%" ∧
     (confidenceBlock (2589569785738035 / 4503599627370496)).text = "57%" ∧
     (confidenceBlock (2679641778285445 / 4503599627370496)).text = "60%" ∧
     (confidenceBlock 10000000000000000000).text = "1e+21%" ∧
     (confidenceBlock (2 ^ 1020)).text = "Infinity%" ∧
     numberMul (447545212969943 / 562949953421312) 100 = JsNumber.finite (159 / 2) ∧
     mathRound (447545212969943 / 562949953421312 * 100) = 79) := by
  have hboth : m = confidenceBlock c ∧ c ≠ 0 := by
    rw [confidenceHtml_of_response, hc] at hm
    by_cases ht : (!("assistant" == "user") && truthyNum (some c)) = true
    · rw [if_pos ht] at hm
      refine ⟨(Option.some.inj hm).symm, ?_⟩
      intro h0
      rw [h0] at ht
      simp [truthyNum] at ht
    · rw [if_neg ht] at hm
      cases hm
  obtain ⟨hblock, hc0⟩ := hboth
  subst hblock
  refine ⟨⟨rfl, rfl⟩, ?_, ?_, ?_, ⟨?_, mathRound_iff, ?_, ?_⟩, ?_, ?_, ?_,
    ⟨sample_blocks.2.1, sample_blocks.2.2.1, sample_blocks.2.2.2.1, sample_blocks.2.2.2.2.1,
      sample_blocks.2.2.2.2.2, sample_products.2.2.1,
      (mathRound_iff _ 79).mpr (by norm_num)⟩⟩
  · intro h
    simp only [confidenceBlock, confidenceIcon, confidenceColor, h, if_true]
    exact ⟨rfl, rfl, rfl⟩
  · intro h1 h2
    simp only [confidenceBlock, confidenceIcon, confidenceColor, h1, h2, if_true]
    exact ⟨rfl, rfl, rfl⟩
  · intro h
    have h2 := Rounded.ge_mono _ h
    simp only [confidenceBlock, confidenceIcon, confidenceColor, h, h2]
    exact ⟨rfl, rfl, rfl⟩
  · intro x hx
    rw [hx]
    rfl
  · intro n k
    simp [Rounded.ge]
  · intro n h0 h1
    exact intToString_percent n h0 h1
  · intro x hx
    exact roundToDouble_error (c * 100) x (mul_ne_zero hc0 (by norm_num)) hx
  · intro h0 h1
    obtain ⟨p, hp0, hp1, hround, hnear⟩ := percent_in_range c h0 h1
    have htext : (Rounded.int p).toText = toString p := intToString_percent p hp0 hp1
    refine ⟨p, ⟨hp0, hp1, hnear⟩, hround, ?_, ?_, ?_, ?_⟩
    · constructor
      · show (numberMul c 100).round.toText ++ "%" = toString p ++ "%"
        rw [hround, htext]
      · show "width: " ++ (numberMul c 100).round.toText ++ "%" = "width: " ++ toString p ++ "%"
        rw [hround, htext]
    · intro h80
      have h : (Rounded.int p).ge 80 = true := by simpa [Rounded.ge] using h80
      simp only [confidenceBlock, confidenceIcon, confidenceColor, hround, h, if_true]
      exact ⟨rfl, rfl, rfl⟩
    · intro h60 h80
      have h : (Rounded.int p).ge 60 = true := by simpa [Rounded.ge] using h60
      have h2 : (Rounded.int p).ge 80 = false := by simpa [Rounded.ge] using h80
      simp only [confidenceBlock, confidenceIcon, confidenceColor, hround, h, h2, if_true]
      exact ⟨rfl, rfl, rfl⟩
    · intro h60
      have h : (Rounded.int p).ge 60 = false := by simpa [Rounded.ge] using h60
      have h2 : (Rounded.int p).ge 80 = false := by
        simp only [Rounded.ge, decide_eq_false_iff_not, not_le]
        omega
      simp only [confidenceBlock, confidenceIcon, confidenceColor, hround, h, h2]
      exact ⟨rfl, rfl, rfl⟩
  · constructor
    · rfl
    · rw [confidenceHtml_of_response]
      have ht : truthyNum sampleReply.confidence = true := by
        simp [truthyNum, sampleReply]
      have hu : (!("assistant" == "user")) = true := by decide
      rw [ht, hu]
      simp only [Bool.and_self, if_true, sampleReply, Option.map]
      rw [sample_blocks.1]

theorem confidence_meter_tier_witness :
    sampleReply.confidence = some (7656119366529843 / 9007199254740992) ∧
    (confidenceBlock (7656119366529843 / 9007199254740992)).text = "85%" :=
  have h := (confidence_meter_tier "10:00" (some "X") sampleReply false false
    (7656119366529843 / 9007199254740992)
    (confidenceBlock (7656119366529843 / 9007199254740992)) rfl (by
      rw [confidenceHtml_of_response]
      simp [truthyNum, sampleReply])).1.1
  ⟨rfl, by rw [h, sample_rounds.1]; decide⟩

theorem data_recommendationItem (rec : String) :
    (recommendationItem rec).data =
      "<li class=\"text-sm text-blue-800\">• ".data ++ (rec.data ++ "</li>".data) := by
  simp [recommendationItem, String.data_append]

theorem Scan.pop_after (before : List String) (s : Scan) (popped remaining : List (List Char)) :
    (Scan.after before s).pop popped remaining = Scan.after before (s.pop popped remaining) := by
  simp only [Scan.pop, Scan.after]
  split_ifs <;> simp

theorem Scan.push_after (before : List String) (s : Scan) (element : List Char) :
    (Scan.after before s).push element = Scan.after before (s.push element) := rfl

theorem Scan.emitTag_after (before : List String) (s : Scan) :
    (Scan.after before s).emitTag = Scan.after before s.emitTag := by
  have hstack : (Scan.after before s).stack = s.stack := rfl
  have hname : (Scan.after before s).name = s.name := rfl
  have hclosing : (Scan.after before s).closing = s.closing := rfl
  simp only [Scan.emitTag, hstack, hname, hclosing]
  repeat' split
  all_goals first
    | rfl
    | exact Scan.pop_after before s _ _
    | (rw [Scan.pop_after]; rfl)

/-- Items closed before a stretch of markup stay in front of those the stretch closes. -/
theorem Scan.step_after (before : List String) (s : Scan) (c : Char) :
    (Scan.after before s).step c = Scan.after before (s.step c) := by
  have hemit := Scan.emitTag_after before s
  obtain ⟨mode, closing, name, stack, items, buffer⟩ := s
  cases mode <;>
    simp only [Scan.step, Scan.after] at hemit ⊢ <;> split_ifs <;>
    first
    | rfl
    | exact hemit

theorem scan_after (before : List String) :
    ∀ (text : List Char) (s : Scan),
      text.foldl Scan.step (Scan.after before s) = Scan.after before (text.foldl Scan.step s)
  | [], _ => rfl
  | c :: rest, s => by
    rw [List.foldl_cons, List.foldl_cons, Scan.step_after before s c]
    exact scan_after before rest (Scan.step s c)

/-- The scan of a stretch of markup that starts with some items closed. -/
theorem scan_from (text : List Char) (s result : Scan) (h : text.foldl Scan.step s = result)
    (hs : s.items = []) (items : List String) :
    text.foldl Scan.step { s with items := items } = Scan.after items result := by
  have e : ({ s with items := items } : Scan) = Scan.after items s := by
    simp [Scan.after, hs]
  rw [e, scan_after, h]

/-- The scan of text that reaches the open item as it is. -/
theorem scan_plain_text (stack : List (List Char)) (hli : "li".data ∈ stack)
    (items : List String) :
    ∀ (text : List Char) (buffer : List Char), (∀ c ∈ text, isPlainText c = true) →
      text.foldl Scan.step
        { mode := ScanMode.data, closing := false, name := [], stack := stack, items := items,
          buffer := buffer } =
        { mode := ScanMode.data, closing := false, name := [], stack := stack, items := items,
          buffer := buffer ++ text }
  | [], buffer, _ => by simp
  | c :: rest, buffer, h => by
    have hc : isPlainText c = true := h c (List.mem_cons_self _ _)
    have hlt : (c.toNat == 0x3C) = false := by
      simp only [isPlainText, Bool.and_eq_true, bne_iff_ne, ne_eq] at hc
      simpa using hc.1.1.1
    have hstep : Scan.step
        { mode := ScanMode.data, closing := false, name := [], stack := stack, items := items,
          buffer := buffer } c =
        { mode := ScanMode.data, closing := false, name := [], stack := stack, items := items,
          buffer := buffer ++ [c] } := by
      simp only [Scan.step, hlt, hli, hc, if_true]
      rfl
    rw [List.foldl_cons, hstep,
      scan_plain_text stack hli items rest (buffer ++ [c])
        (fun d hd => h d (List.mem_cons_of_mem _ hd))]
    simp

/-- The scan of the end tag of an item of the list. -/
theorem scan_item_close (items : List String) (buffer : List Char) :
    "</li>".data.foldl Scan.step
      { mode := ScanMode.data, closing := false, name := [],
        stack := ["li".data, "ul".data, "div".data], items := items, buffer := buffer } =
      { mode := ScanMode.data, closing := false, name := [],
        stack := ["ul".data, "div".data], items := items ++ [String.mk buffer],
        buffer := [] } := by
  have h : "</li>".data = ['<', '/', 'l', 'i', '>'] := rfl
  rw [h]
  simp [List.foldl, Scan.step, Scan.emitTag, Scan.pop, isAsciiLetter, isTagSpace]

/-- The scan of the start tag of an item of the list and of its bullet. -/
theorem scan_item_open (items : List String) :
    "<li class=\"text-sm text-blue-800\">• ".data.foldl Scan.step
      { mode := ScanMode.data, closing := false, name := [],
        stack := ["ul".data, "div".data], items := items, buffer := [] } =
      { mode := ScanMode.data, closing := false, name := [],
        stack := ["li".data, "ul".data, "div".data], items := items,
        buffer := "• ".data } := by
  have h := scan_from "<li class=\"text-sm text-blue-800\">• ".data
    { mode := ScanMode.data, closing := false, name := [],
      stack := ["ul".data, "div".data], items := [], buffer := [] }
    { mode := ScanMode.data, closing := false, name := [],
      stack := ["li".data, "ul".data, "div".data], items := [], buffer := "• ".data }
    (by decide!) rfl items
  rw [h]
  simp [Scan.after]

/-- The scan of one item of the template whose recommendation is plain text. -/
theorem scan_recommendationItem (items : List String) (rec : String)
    (h : ∀ c ∈ rec.data, isPlainText c = true) :
    (recommendationItem rec).data.foldl Scan.step
      { mode := ScanMode.data, closing := false, name := [],
        stack := ["ul".data, "div".data], items := items, buffer := [] } =
      { mode := ScanMode.data, closing := false, name := [],
        stack := ["ul".data, "div".data], items := items ++ ["• " ++ rec], buffer := [] } := by
  rw [data_recommendationItem, List.foldl_append, List.foldl_append, scan_item_open,
    scan_plain_text _ (by decide) items rec.data "• ".data h, scan_item_close]
  rfl

/-- The scan of the items of the template, one after the other. -/
theorem scan_items :
    ∀ (recs : List String) (items : List String),
      (∀ rec ∈ recs, ∀ c ∈ rec.data, isPlainText c = true) →
      (joinAll (recs.map recommendationItem)).data.foldl Scan.step
        { mode := ScanMode.data, closing := false, name := [],
          stack := ["ul".data, "div".data], items := items, buffer := [] } =
        { mode := ScanMode.data, closing := false, name := [],
          stack := ["ul".data, "div".data],
          items := items ++ recs.map (fun rec => "• " ++ rec), buffer := [] }
  | [], items, _ => by simp [joinAll]
  | rec :: rest, items, h => by
    have hdata : (joinAll ((rec :: rest).map recommendationItem)).data =
        (recommendationItem rec).data ++ (joinAll (rest.map recommendationItem)).data := by
      simp [joinAll, String.data_append]
    rw [hdata, List.foldl_append,
      scan_recommendationItem items rec (h rec (List.mem_cons_self _ _)),
      scan_items rest (items ++ ["• " ++ rec]) (fun r hr => h r (List.mem_cons_of_mem _ hr))]
    simp

/-- The list items of the block for recommendations that are plain text. -/
theorem listItems_recommendationsBlock (recs : List String)
    (h : ∀ rec ∈ recs, ∀ c ∈ rec.data, isPlainText c = true) :
    listItems (recommendationsBlock recs) = some (recs.map (fun rec => "• " ++ rec)) := by
  have hopen : recommendationsOpen.data.foldl Scan.step Scan.start =
      { mode := ScanMode.data, closing := false, name := [],
        stack := ["ul".data, "div".data], items := [], buffer := [] } := by decide!
  have hclose := scan_from recommendationsClose.data
    { mode := ScanMode.data, closing := false, name := [],
      stack := ["ul".data, "div".data], items := [], buffer := [] } Scan.start
    (by decide!) rfl (recs.map (fun rec => "• " ++ rec))
  have hdata : (recommendationsBlock recs).data = recommendationsOpen.data ++
      ((joinAll (recs.map recommendationItem)).data ++ recommendationsClose.data) := by
    simp [recommendationsBlock, String.data_append]
  unfold listItems
  rw [hdata, List.foldl_append, List.foldl_append, hopen]
  have hitems := scan_items recs [] h
  rw [List.nil_append] at hitems
  rw [hitems, hclose]
  simp [Scan.after, Scan.start]

theorem recommendationsHtml_of_response (time role : String) (content : Option String)
    (r : BackendResponse) (hasImage isImageAnalysis : Bool) :
    (renderMessage time role content (some r) hasImage isImageAnalysis).recommendationsHtml =
      match r.recommendations with
      | some recs => if recs.length > 0 then recommendationsBlock recs else ""
      | none => "" := by
  rfl

/-- Against C4 as stated: a single recommendation that holds markup is rendered as two list
items, the second of which carries no recommendation of the reply. -/
theorem recommendation_with_markup_two_items :
    (renderMessage "10:01" "assistant" (some "X") (some sampleMarkupReply) false
      false).recommendationsHtml = recommendationsBlock ["A</li><li>B"] ∧
    listItems (recommendationsBlock ["A</li><li>B"]) = some ["• A", "B"] ∧
    sampleMarkupReply.recommendations = some ["A</li><li>B"] := by
  refine ⟨rfl, ?_, rfl⟩
  decide!

/-- C4, amended. A reply whose list of recommendations is not empty is rendered with one
block of recommendations, the template around the items of the list joined in the order of
the reply, each recommendation inserted as it is. When every recommendation is plain text
(no `<`, no `&`, no NUL, no carriage return), the block has exactly one list item for each
recommendation, in the order of the reply, the item of `rec` carrying `• rec`; the list `A`,
`B` gives the two items `• A`, `• B`. A reply with no list or with an empty list is rendered
with no block. -/
theorem recommendations_block (time : String) (content : Option String) (r : BackendResponse)
    (hasImage isImageAnalysis : Bool) :
    (∀ recs, r.recommendations = some recs → recs ≠ [] →
      (renderMessage time "assistant" content (some r) hasImage
        isImageAnalysis).recommendationsHtml =
        recommendationsOpen ++ joinAll (recs.map recommendationItem) ++
          recommendationsClose ∧
      ((∀ rec ∈ recs, ∀ c ∈ rec.data, isPlainText c = true) →
        ∃ items,
          listItems (renderMessage time "assistant" content (some r) hasImage
            isImageAnalysis).recommendationsHtml = some items ∧
          items.length = recs.length ∧
          ∀ i (h : i < recs.length), items[i]? = some ("• " ++ recs[i]))) ∧
    ((r.recommendations = none ∨ r.recommendations = some []) →
      (renderMessage time "assistant" content (some r) hasImage
        isImageAnalysis).recommendationsHtml = "" ∧
      listItems (renderMessage time "assistant" content (some r) hasImage
        isImageAnalysis).recommendationsHtml = some []) ∧
    listItems (renderMessage time "assistant" content (some sampleReply) hasImage
      isImageAnalysis).recommendationsHtml = some ["• A", "• B"] := by
  refine ⟨?_, ?_, ?_⟩
  · intro recs hr hne
    have hlen : recs.length > 0 := List.length_pos.mpr hne
    have hblock : (renderMessage time "assistant" content (some r) hasImage
        isImageAnalysis).recommendationsHtml = recommendationsBlock recs := by
      rw [recommendationsHtml_of_response, hr]
      simp only [if_pos hlen]
    refine ⟨hblock, ?_⟩
    intro hplain
    refine ⟨recs.map (fun rec => "• " ++ rec), ?_, by simp, ?_⟩
    · rw [hblock]
      exact listItems_recommendationsBlock recs hplain
    · intro i h
      simp [List.getElem?_map, List.getElem?_eq_getElem h]
  · intro h
    have hnone : (renderMessage time "assistant" content (some r) hasImage
        isImageAnalysis).recommendationsHtml = "" := by
      rw [recommendationsHtml_of_response]
      rcases h with h | h <;> simp [h]
    rw [hnone]
    exact ⟨rfl, by decide⟩
  · have hblock : (renderMessage time "assistant" content (some sampleReply) hasImage
        isImageAnalysis).recommendationsHtml = recommendationsBlock ["A", "B"] := rfl
    rw [hblock]
    exact listItems_recommendationsBlock ["A", "B"] (by decide)

theorem recommendations_block_witness :
    (sampleReply.recommendations = some ["A", "B"] ∧
     ∀ rec ∈ ["A", "B"], ∀ c ∈ rec.data, isPlainText c = true) ∧
    listItems (renderMessage "10:00" "assistant" (some "X") (some sampleReply) false
      false).recommendationsHtml = some ["• A", "• B"] :=
  ⟨⟨rfl, by decide⟩, by
    obtain ⟨items, h1, h2, h3⟩ :=
      ((recommendations_block "10:00" (some "X") sampleReply false false).1 ["A", "B"] rfl
        (by decide)).2 (by decide)
    have e0 := h3 0 (by decide)
    have e1 := h3 1 (by decide)
    rw [h1]
    match items, h2, e0, e1 with
    | [a, b], _, e0, e1 =>
      simp only [List.getElem?_cons_zero, List.getElem?_cons_succ, Option.some.injEq] at e0 e1
      rw [e0, e1]
      rfl⟩

/-! ## Substring tests on error messages -/

theorem includesChars_of_isPrefixOf (hay needle : List Char)
    (h : needle.isPrefixOf hay = true) : includesChars hay needle = true := by
  cases hay with
  | nil => simpa [includesChars] using h
  | cons c t => simp [includesChars, h]

theorem mem_of_includesChars (c : Char) (needle : List Char) :
    ∀ hay : List Char, includesChars hay (c :: needle) = true → c ∈ hay
  | [], h => by simp [includesChars, List.isPrefixOf] at h
  | d :: t, h => by
    simp only [includesChars, Bool.or_eq_true] at h
    rcases h with h | h
    · simp only [List.isPrefixOf, Bool.and_eq_true, beq_iff_eq] at h
      rw [h.1]
      exact List.mem_cons_self _ _
    · exact List.mem_cons_of_mem _ (mem_of_includesChars c needle t h)

theorem digitChar_ne_F (n : Nat) (h : n < 10) : Nat.digitChar n ≠ 'F' := by
  interval_cases n <;> decide

theorem toDigitsCore_ne_F (fuel : Nat) :
    ∀ (n : Nat) (ds : List Char), (∀ c ∈ ds, c ≠ 'F') →
      ∀ c ∈ Nat.toDigitsCore 10 fuel n ds, c ≠ 'F' := by
  induction fuel with
  | zero =>
    intro n ds hds c hc
    exact hds c hc
  | succ fuel ih =>
    intro n ds hds c hc
    have hd : ∀ c ∈ Nat.digitChar (n % 10) :: ds, c ≠ 'F' := by
      intro c hc
      rcases List.mem_cons.mp hc with h | h
      · rw [h]
        exact digitChar_ne_F _ (Nat.mod_lt _ (by decide))
      · exact hds c h
    simp only [Nat.toDigitsCore] at hc
    split at hc
    · exact hd c hc
    · exact ih _ _ hd c hc

theorem toString_nat_ne_F (n : Nat) : 'F' ∉ (toString n).data := by
  intro h
  exact toDigitsCore_ne_F (n + 1) n [] (by simp) 'F' h rfl

/-- The message thrown for a status contains `HTTP error` and does not contain
`Failed to fetch`. -/
theorem httpErrorMessage_includes (status : Nat) :
    includes (httpErrorMessage status) "Failed to fetch" = false ∧
    includes (httpErrorMessage status) "HTTP error" = true := by
  constructor
  · cases h : includes (httpErrorMessage status) "Failed to fetch" with
    | false => rfl
    | true =>
      exfalso
      have hmem : 'F' ∈ (httpErrorMessage status).data :=
        mem_of_includesChars 'F' "ailed to fetch".data _ h
      have hdata : (httpErrorMessage status).data =
          "HTTP error! status: ".data ++ (toString status).data := rfl
      rw [hdata, List.mem_append] at hmem
      rcases hmem with hmem | hmem
      · revert hmem
        decide
      · exact toString_nat_ne_F status hmem
  · apply includesChars_of_isPrefixOf
    have hdata : (httpErrorMessage status).data =
        "HTTP error".data ++ ("! status: ".data ++ (toString status).data) := rfl
    rw [hdata]
    simp [List.isPrefixOf_iff_prefix]

/-! ## The two halves of `sendMessage` -/

theorem clearWelcomeMessage_frame (s : State) :
    (clearWelcomeMessage s).notifications = s.notifications ∧
    (clearWelcomeMessage s).requests = s.requests ∧
    (clearWelcomeMessage s).currentConversationId = s.currentConversationId ∧
    (clearWelcomeMessage s).sendBtn = s.sendBtn ∧
    (clearWelcomeMessage s).apiBase = s.apiBase := by
  by_cases h : (decide ((s.chatMessages.filter ChatChild.isFadeIn).length > 0) &&
      !s.welcomeCleared) = true
  · simp only [clearWelcomeMessage, if_pos h, and_self]
  · simp only [clearWelcomeMessage, if_neg h, and_self]

theorem updateCharacterCount_frame (s : State) :
    (updateCharacterCount s).notifications = s.notifications ∧
    (updateCharacterCount s).requests = s.requests ∧
    (updateCharacterCount s).currentConversationId = s.currentConversationId ∧
    (updateCharacterCount s).sendBtn = s.sendBtn ∧
    (updateCharacterCount s).apiBase = s.apiBase ∧
    (updateCharacterCount s).chatMessages = s.chatMessages := by
  unfold updateCharacterCount
  split <;> exact ⟨rfl, rfl, rfl, rfl, rfl, rfl⟩

/-- The state in which `sendMessage` waits for its request. -/
theorem sendMessageRequest_fields (s : State) (message time : String) :
    (sendMessageRequest s message time).sendBtn =
      { disabled := true, innerHTML := sendBusyLabel } ∧
    (sendMessageRequest s message time).requests = s.requests ++
      [{ url := s.apiBase ++ "/chat", method := "POST", contentType := some "application/json",
         body := Body.json message }] ∧
    (sendMessageRequest s message time).chatMessages = (clearWelcomeMessage s).chatMessages ++
      [ChatChild.message (renderMessage time "user" (some message) none false false)] ∧
    (sendMessageRequest s message time).notifications = s.notifications ∧
    (sendMessageRequest s message time).currentConversationId = s.currentConversationId := by
  obtain ⟨h1', h2', h3', h4', h5', h6'⟩ := updateCharacterCount_frame
    { (addMessageToChat (clearWelcomeMessage
        { s with sendBtn := { disabled := true, innerHTML := sendBusyLabel } })
        time "user" (some message) none false false) with messageInput := "" }
  obtain ⟨k1, k2, k3, k4, k5⟩ := clearWelcomeMessage_frame
    { s with sendBtn := { disabled := true, innerHTML := sendBusyLabel } }
  have kc : (clearWelcomeMessage
      { s with sendBtn := { disabled := true, innerHTML := sendBusyLabel } }).chatMessages =
      (clearWelcomeMessage s).chatMessages := by
    simp only [clearWelcomeMessage]
    split <;> rfl
  simp only [sendMessageRequest]
  refine ⟨?_, ?_, ?_, ?_, ?_⟩
  · rw [h4']
    exact k4
  · rw [h2', h5']
    simp only [addMessageToChat]
    rw [k2, k5]
  · rw [h6']
    simp only [addMessageToChat]
    rw [kc]
  · rw [h1']
    exact k1
  · rw [h3']
    exact k3

/-- What `sendMessage` does once its request has failed with an error of the given message:
one assistant turn built without a response object, one error notification, the send button
back to idle. -/
theorem sendMessageSettled_error (s : State) (time message : String) (outcome : FetchOutcome)
    (h : sendMessageTry s time outcome = Except.error message) :
    sendMessageSettled s time outcome =
      { s with
        chatMessages := s.chatMessages ++ [ChatChild.message (renderMessage time "assistant"
          (some (if includes message "Failed to fetch" then chatUnreachable
            else if includes message "HTTP error" then "Error del servidor: " ++ message
            else chatGenericError)) none false false)]
        notifications := s.notifications ++
          [{ message := "Error al enviar el mensaje", type := Severity.error }]
        sendBtn := { disabled := false, innerHTML := sendIdleLabel } } := by
  unfold sendMessageSettled
  rw [h]
  rfl

theorem sendMessageTry_rejected (s : State) (time message : String) :
    sendMessageTry s time (FetchOutcome.rejected message) = Except.error message := rfl

theorem sendMessageTry_status (s : State) (time : String) (status : Nat) (json : JsonResult)
    (h : FetchOutcome.statusOk status = false) :
    sendMessageTry s time (FetchOutcome.response status json) =
      Except.error (httpErrorMessage status) := by
  simp [sendMessageTry, h]

theorem sendMessageTry_syntaxError (s : State) (time : String) (status : Nat) (message : String)
    (h : FetchOutcome.statusOk status = true) :
    sendMessageTry s time (FetchOutcome.response status (JsonResult.syntaxError message)) =
      Except.error message := by
  simp [sendMessageTry, h]

/-- What `sendMessage` does once its request has brought a parsed reply. -/
theorem sendMessageSettled_parsed (s : State) (time : String) (status : Nat)
    (result : BackendResponse) (h : FetchOutcome.statusOk status = true) :
    sendMessageSettled s time (FetchOutcome.response status (JsonResult.parsed result)) =
      { s with
        chatMessages := s.chatMessages ++ [ChatChild.message (renderMessage time "assistant"
          (orElse result.diagnosis result.response) (some result) false false)]
        currentConversationId :=
          if truthyStr result.conversation_id then result.conversation_id
          else s.currentConversationId
        sendBtn := { disabled := false, innerHTML := sendIdleLabel } } := by
  simp only [sendMessageSettled, sendMessageTry, h, addMessageToChat]
  by_cases hc : truthyStr result.conversation_id = true
  · simp [hc]
  · simp [hc]

theorem sendMessage_of_nonempty (s : State) (timeSent timeReply : String)
    (outcome : FetchOutcome) (h : trim s.messageInput ≠ "") :
    sendMessage s timeSent timeReply outcome =
      sendMessageSettled (sendMessageRequest s (trim s.messageInput) timeSent) timeReply
        outcome := by
  unfold sendMessage
  simp only [h, if_false]

/-! ## Failures of `sendMessage` -/

/-- C5. The claim asks that a fetch that fails be answered with the text for an unreachable
backend, and the `catch` block has a branch for it; the code misses it where the failure is
not worded `Failed to fetch`: a fetch that rejects with
`NetworkError when attempting to fetch resource.` is answered with the generic error text. -/
theorem sendMessage_network_failure_generic :
    trim sampleTyped.messageInput ≠ "" ∧
    (sendMessage sampleTyped "10:00" "10:01"
      (FetchOutcome.rejected "NetworkError when attempting to fetch resource.")).chatMessages =
      [ChatChild.message (renderMessage "10:00" "user" (some "Me duele la cabeza") none false
          false),
       ChatChild.message (renderMessage "10:01" "assistant" (some chatGenericError) none false
          false)] ∧
    chatGenericError ≠ chatUnreachable := by
  refine ⟨by decide, ?_, by decide⟩
  rfl

theorem chatUnreachable_ne_server (text : String) :
    chatUnreachable ≠ "Error del servidor: " ++ text := by
  intro h
  have hd : chatUnreachable.data.head? = ("Error del servidor: " ++ text).data.head? := by
    rw [h]
  have h1 : chatUnreachable.data.head? = some '⚠' := by decide
  have h2 : ("Error del servidor: " ++ text).data.head? = some 'E' := rfl
  rw [h1, h2] at hd
  revert hd
  decide

/-- What the `catch` block of `sendMessage` makes of a failure, after a message that is not
empty once trimmed: one assistant turn after the user turn, one notification of severity
`error`, the stored conversation identifier as it was. The turn carries the text for an
unreachable backend when the fetch rejects with a message containing `Failed to fetch`, the
text `Error del servidor: HTTP error! status: s` when the response has a status `s` outside
200..299, and the generic error text when the message of the rejection contains neither
`Failed to fetch` nor `HTTP error`. The first two texts differ. -/
theorem sendMessage_failure_classified (s : State) (timeSent timeReply : String)
    (h : trim s.messageInput ≠ "") :
    (∀ message, includes message "Failed to fetch" = true →
      (sendMessage s timeSent timeReply (FetchOutcome.rejected message)).chatMessages =
        (clearWelcomeMessage s).chatMessages ++
          [ChatChild.message (renderMessage timeSent "user" (some (trim s.messageInput)) none
              false false),
           ChatChild.message (renderMessage timeReply "assistant" (some chatUnreachable) none
              false false)]) ∧
    (∀ status json, FetchOutcome.statusOk status = false →
      (sendMessage s timeSent timeReply (FetchOutcome.response status json)).chatMessages =
        (clearWelcomeMessage s).chatMessages ++
          [ChatChild.message (renderMessage timeSent "user" (some (trim s.messageInput)) none
              false false),
           ChatChild.message (renderMessage timeReply "assistant"
              (some ("Error del servidor: HTTP error! status: " ++ toString status)) none
              false false)]) ∧
    (∀ message, includes message "Failed to fetch" = false →
      includes message "HTTP error" = false →
      (sendMessage s timeSent timeReply (FetchOutcome.rejected message)).chatMessages =
        (clearWelcomeMessage s).chatMessages ++
          [ChatChild.message (renderMessage timeSent "user" (some (trim s.messageInput)) none
              false false),
           ChatChild.message (renderMessage timeReply "assistant" (some chatGenericError) none
              false false)]) ∧
    (∀ status : Nat,
      chatUnreachable ≠ "Error del servidor: HTTP error! status: " ++ toString status) ∧
    (∀ outcome,
      (∃ message, outcome = FetchOutcome.rejected message) ∨
      (∃ status json, outcome = FetchOutcome.response status json ∧
        FetchOutcome.statusOk status = false) →
      (sendMessage s timeSent timeReply outcome).notifications = s.notifications ++
        [{ message := "Error al enviar el mensaje", type := Severity.error }] ∧
      (sendMessage s timeSent timeReply outcome).currentConversationId =
        s.currentConversationId) := by
  obtain ⟨_, _, hchat, hnote, hconv⟩ :=
    sendMessageRequest_fields s (trim s.messageInput) timeSent
  refine ⟨?_, ?_, ?_, ?_, ?_⟩
  · intro message hm
    rw [sendMessage_of_nonempty s _ _ _ h,
      sendMessageSettled_error _ _ message _ (sendMessageTry_rejected _ _ _)]
    simp only [hm, if_true, hchat, List.append_assoc, List.singleton_append]
  · intro status json hs
    rw [sendMessage_of_nonempty s _ _ _ h,
      sendMessageSettled_error _ _ _ _ (sendMessageTry_status _ _ status json hs)]
    simp only [(httpErrorMessage_includes status).1, (httpErrorMessage_includes status).2,
      if_true, hchat, List.append_assoc, List.singleton_append]
    rfl
  · intro message h1 h2
    rw [sendMessage_of_nonempty s _ _ _ h,
      sendMessageSettled_error _ _ message _ (sendMessageTry_rejected _ _ _)]
    simp only [h1, h2, hchat, List.append_assoc, List.singleton_append]
    rfl
  · intro status
    have e : "Error del servidor: HTTP error! status: " ++ toString status =
        "Error del servidor: " ++ ("HTTP error! status: " ++ toString status) := by
      rw [← String.append_assoc]
      rfl
    rw [e]
    exact chatUnreachable_ne_server _
  · intro outcome ho
    have herr : ∃ message, sendMessageTry (sendMessageRequest s (trim s.messageInput) timeSent)
        timeReply outcome = Except.error message := by
      rcases ho with ⟨message, rfl⟩ | ⟨status, json, rfl, hs⟩
      · exact ⟨message, rfl⟩
      · exact ⟨_, sendMessageTry_status _ _ status json hs⟩
    obtain ⟨message, hm⟩ := herr
    rw [sendMessage_of_nonempty s _ _ _ h, sendMessageSettled_error _ _ message _ hm]
    exact ⟨by simp only [hnote], hconv⟩

theorem sendMessage_failure_classified_witness :
    trim sampleTyped.messageInput ≠ "" ∧
    (sendMessage sampleTyped "10:00" "10:01"
      (FetchOutcome.response 500 (JsonResult.syntaxError "Unexpected token"))).chatMessages =
      (clearWelcomeMessage sampleTyped).chatMessages ++
        [ChatChild.message (renderMessage "10:00" "user" (some (trim sampleTyped.messageInput))
            none false false),
         ChatChild.message (renderMessage "10:01" "assistant"
            (some ("Error del servidor: HTTP error! status: " ++ toString 500)) none
            false false)] :=
  ⟨by decide,
   (sendMessage_failure_classified sampleTyped "10:00" "10:01" (by decide)).2.1 500
     (JsonResult.syntaxError "Unexpected token") (by decide)⟩

/-! ## The send button -/

/-- C6. A call of `sendMessage` that passes the guard has the send button disabled in the
state in which its request is issued, and whatever the outcome of the request, and whatever
the state in which it arrives, the button is enabled with its idle label afterwards. -/
theorem send_control_reenabled (s : State) (timeSent timeReply : String)
    (outcome : FetchOutcome) (h : trim s.messageInput ≠ "") :
    ((sendMessageRequest s (trim s.messageInput) timeSent).sendBtn.disabled = true ∧
     (sendMessageRequest s (trim s.messageInput) timeSent).requests = s.requests ++
      [{ url := s.apiBase ++ "/chat", method := "POST", contentType := some "application/json",
         body := Body.json (trim s.messageInput) }]) ∧
    (∀ later : State, (sendMessageSettled later timeReply outcome).sendBtn =
      { disabled := false, innerHTML := sendIdleLabel }) ∧
    (sendMessage s timeSent timeReply outcome).sendBtn =
      { disabled := false, innerHTML := sendIdleLabel } := by
  obtain ⟨hbtn, hreq, _, _, _⟩ := sendMessageRequest_fields s (trim s.messageInput) timeSent
  refine ⟨⟨by rw [hbtn], hreq⟩, fun later => rfl, ?_⟩
  rw [sendMessage_of_nonempty s _ _ _ h]
  rfl

theorem send_control_reenabled_witness :
    trim sampleTyped.messageInput ≠ "" ∧
    (sendMessage sampleTyped "10:00" "10:01"
      (FetchOutcome.response 200 (JsonResult.syntaxError "Unexpected token"))).sendBtn =
      { disabled := false, innerHTML := sendIdleLabel } :=
  ⟨by decide,
   (send_control_reenabled sampleTyped "10:00" "10:01"
     (FetchOutcome.response 200 (JsonResult.syntaxError "Unexpected token")) (by decide)).2.2⟩

/-! ## The success path of `sendMessage` -/

/-- Against C7 as stated: a reply with a present, empty `diagnosis` is rendered with its
`response`, and a present, empty `conversation_id` does not replace the stored identifier. -/
theorem sendMessage_empty_fields_fall_through :
    (trim sampleTyped.messageInput ≠ "" ∧ FetchOutcome.statusOk 200 = true) ∧
    (sampleEmptyFields.diagnosis = some "" ∧
     (sendMessage sampleTyped "10:00" "10:01"
        (FetchOutcome.response 200 (JsonResult.parsed sampleEmptyFields))).chatMessages =
      [ChatChild.message (renderMessage "10:00" "user" (some "Me duele la cabeza") none false
          false),
       ChatChild.message (renderMessage "10:01" "assistant" (some "R")
          (some sampleEmptyFields) false false)] ∧
     (renderMessage "10:01" "assistant" (some "R") (some sampleEmptyFields) false
        false).content = "R" ∧
     (renderMessage "10:01" "assistant" (some "R") (some sampleEmptyFields) false
        false).content ≠ "") ∧
    (sampleEmptyFields.conversation_id = some "" ∧
     (sendMessage sampleTyped "10:00" "10:01"
        (FetchOutcome.response 200 (JsonResult.parsed sampleEmptyFields))).currentConversationId
      = some "c-1" ∧
     (sendMessage sampleTyped "10:00" "10:01"
        (FetchOutcome.response 200 (JsonResult.parsed sampleEmptyFields))).currentConversationId
      ≠ sampleEmptyFields.conversation_id) := by
  refine ⟨⟨by decide, by decide⟩, ⟨rfl, ?_, rfl, by decide⟩, ⟨rfl, ?_, ?_⟩⟩
  · rfl
  · rfl
  · have e : (sendMessage sampleTyped "10:00" "10:01" (FetchOutcome.response 200
        (JsonResult.parsed sampleEmptyFields))).currentConversationId = some "c-1" := rfl
    rw [e]
    decide

theorem orElse_of_truthy (d : String) (b : Option String) (h : d ≠ "") :
    orElse (some d) b = some d := by
  simp [orElse, truthyStr, h]

theorem orElse_of_falsy (a b : Option String) (h : a = none ∨ a = some "") :
    orElse a b = b := by
  rcases h with h | h <;> simp [orElse, truthyStr, h]

/-- C7, amended. After a message `m` that is not empty once trimmed and a reply with a status
in 200..299 and a parsed body `r`: the one request issued has the body `message: m`; the
transcript gains a user turn with content `m` and then an assistant turn rendered with `r`,
whose content is `r.diagnosis` when that is present and not empty and otherwise `r.response`
(the text `undefined` when that is absent); the stored conversation identifier becomes
`r.conversation_id` when that is present and not empty and is left as it was otherwise; no
notification is shown. -/
theorem sendMessage_success (s : State) (timeSent timeReply : String) (status : Nat)
    (r : BackendResponse) (h : trim s.messageInput ≠ "")
    (hs : FetchOutcome.statusOk status = true) :
    (sendMessage s timeSent timeReply (FetchOutcome.response status (JsonResult.parsed
        r))).requests = s.requests ++
      [{ url := s.apiBase ++ "/chat", method := "POST", contentType := some "application/json",
         body := Body.json (trim s.messageInput) }] ∧
    (sendMessage s timeSent timeReply (FetchOutcome.response status (JsonResult.parsed
        r))).chatMessages = (clearWelcomeMessage s).chatMessages ++
      [ChatChild.message (renderMessage timeSent "user" (some (trim s.messageInput)) none false
          false),
       ChatChild.message (renderMessage timeReply "assistant" (orElse r.diagnosis r.response)
          (some r) false false)] ∧
    (renderMessage timeSent "user" (some (trim s.messageInput)) none false false).content =
      trim s.messageInput ∧
    (∀ d, r.diagnosis = some d → d ≠ "" →
      (renderMessage timeReply "assistant" (orElse r.diagnosis r.response) (some r) false
        false).content = d) ∧
    ((r.diagnosis = none ∨ r.diagnosis = some "") →
      (renderMessage timeReply "assistant" (orElse r.diagnosis r.response) (some r) false
        false).content = templateText r.response) ∧
    (∀ id, r.conversation_id = some id → id ≠ "" →
      (sendMessage s timeSent timeReply (FetchOutcome.response status (JsonResult.parsed
        r))).currentConversationId = some id) ∧
    ((r.conversation_id = none ∨ r.conversation_id = some "") →
      (sendMessage s timeSent timeReply (FetchOutcome.response status (JsonResult.parsed
        r))).currentConversationId = s.currentConversationId) ∧
    (sendMessage s timeSent timeReply (FetchOutcome.response status (JsonResult.parsed
        r))).notifications = s.notifications := by
  obtain ⟨_, hreq, hchat, hnote, hconv⟩ :=
    sendMessageRequest_fields s (trim s.messageInput) timeSent
  rw [sendMessage_of_nonempty s _ _ _ h, sendMessageSettled_parsed _ _ status r hs]
  refine ⟨hreq, ?_, rfl, ?_, ?_, ?_, ?_, hnote⟩
  · simp only [hchat, List.append_assoc, List.singleton_append]
  · intro d hd hne
    rw [hd, orElse_of_truthy d _ hne]
    rfl
  · intro hd
    rw [orElse_of_falsy _ _ hd]
    rfl
  · intro id hid hne
    simp [hid, truthyStr, hne]
  · intro hid
    rcases hid with hid | hid <;> simp [hid, truthyStr, hconv]

theorem sendMessage_success_witness :
    (trim sampleTyped.messageInput ≠ "" ∧ FetchOutcome.statusOk 200 = true) ∧
    (sendMessage sampleTyped "10:00" "10:01"
      (FetchOutcome.response 200 (JsonResult.parsed sampleReply))).currentConversationId =
      some "c-2" :=
  ⟨⟨by decide, by decide⟩,
   (sendMessage_success sampleTyped "10:00" "10:01" 200 sampleReply (by decide)
     (by decide)).2.2.2.2.2.1 "c-2" rfl (by decide)⟩

/-! ## Clearing the chat -/

/-- C9. Right after `clearChat` the transcript is empty, the stored conversation identifier
is unset and the restore of the welcome block is scheduled 300 ms later. In whatever state
that restore runs, it leaves the transcript with the welcome block as its only child and the
flag `welcomeCleared` false, so that the next send removes the welcome block again and the
transcript then holds the user turn alone. -/
theorem clearChat_then_restore (s : State) :
    ((clearChat s).chatMessages = [] ∧
     (clearChat s).currentConversationId = none ∧
     (clearChat s).timeouts = s.timeouts ++ [Timeout.restoreWelcome 300]) ∧
    (∀ later : State,
      (runTimeout later (Timeout.restoreWelcome 300)).chatMessages = [ChatChild.welcome] ∧
      (runTimeout later (Timeout.restoreWelcome 300)).welcomeCleared = false) ∧
    ((runTimeout (clearChat s) (Timeout.restoreWelcome 300)).chatMessages =
        [ChatChild.welcome] ∧
     (runTimeout (clearChat s) (Timeout.restoreWelcome 300)).welcomeCleared = false ∧
     (runTimeout (clearChat s) (Timeout.restoreWelcome 300)).currentConversationId = none) ∧
    (∀ (later : State) (message time : String),
      (clearWelcomeMessage (runTimeout later (Timeout.restoreWelcome 300))).chatMessages = [] ∧
      (clearWelcomeMessage (runTimeout later (Timeout.restoreWelcome 300))).welcomeCleared =
        true ∧
      (sendMessageRequest (runTimeout later (Timeout.restoreWelcome 300)) message
        time).chatMessages =
        [ChatChild.message (renderMessage time "user" (some message) none false false)]) := by
  refine ⟨⟨rfl, rfl, rfl⟩, fun later => ⟨rfl, rfl⟩, ⟨rfl, rfl, rfl⟩, ?_⟩
  intro later message time
  have h1 : (clearWelcomeMessage (runTimeout later (Timeout.restoreWelcome 300))).chatMessages
      = [] := rfl
  refine ⟨h1, rfl, ?_⟩
  rw [(sendMessageRequest_fields _ message time).2.2.1, h1]
  rfl

/-! ## The disclaimer -/

theorem analyzeImageSettled_error (s : State) (time message : String) (outcome : FetchOutcome)
    (h : analyzeImageTry s time outcome = Except.error message) :
    analyzeImageSettled s time outcome =
      { s with
        chatMessages := s.chatMessages ++ [ChatChild.message (renderMessage time "assistant"
          (some (if includes message "Failed to fetch" then imageUnreachable
            else if includes message "HTTP error" then
              "Error del servidor al analizar imagen: " ++ message
            else imageGenericError)) none false false)]
        notifications := s.notifications ++
          [{ message := "Error al analizar la imagen", type := Severity.error }]
        analyzeBtn := { disabled := false, innerHTML := analyzeIdleLabel }
        loadingOverlay := classRemove (classAdd s.loadingOverlay "hidden") "flex" } := by
  unfold analyzeImageSettled
  rw [h]
  rfl

theorem analyzeImageSettled_parsed (s : State) (time : String) (status : Nat)
    (result : BackendResponse) (h : FetchOutcome.statusOk status = true) :
    analyzeImageSettled s time (FetchOutcome.response status (JsonResult.parsed result)) =
      { s with
        chatMessages := s.chatMessages ++ [ChatChild.message (renderMessage time "assistant"
          (orElse result.diagnosis result.response) (some result) false true)]
        currentConversationId :=
          if truthyStr result.conversation_id then result.conversation_id
          else s.currentConversationId
        dropZoneContent := classRemove s.dropZoneContent "hidden"
        imagePreview := classAdd s.imagePreview "hidden"
        imageInput := ""
        currentImage := none
        analyzeBtn := { disabled := false, innerHTML := analyzeIdleLabel }
        loadingOverlay := classRemove (classAdd s.loadingOverlay "hidden") "flex" } := by
  simp only [analyzeImageSettled, analyzeImageTry, h, addMessageToChat]
  by_cases hc : truthyStr result.conversation_id = true
  · simp [hc, removeImage, showLoading]
  · simp [hc, removeImage, showLoading]

/-- Against C10 as stated: the error turn that `sendMessage` appends after a failed fetch is
an assistant turn without the disclaimer. -/
theorem error_turn_without_disclaimer :
    trim sampleTyped.messageInput ≠ "" ∧
    (sendMessage sampleTyped "10:00" "10:01" (FetchOutcome.rejected "Failed to fetch")).chatMessages
      = [ChatChild.message (renderMessage "10:00" "user" (some "Me duele la cabeza") none false
          false),
         ChatChild.message (renderMessage "10:01" "assistant" (some chatUnreachable) none false
          false)] ∧
    (renderMessage "10:01" "assistant" (some chatUnreachable) none false false).header =
      some "Asistente Médico" ∧
    (renderMessage "10:01" "assistant" (some chatUnreachable) none false false).disclaimer =
      none := by
  refine ⟨by decide, ?_, rfl, rfl⟩
  rfl

/-- C10, amended. An assistant turn carries the disclaimer block exactly when it is rendered
with a response object: the turns appended for a parsed reply by `sendMessage` and by
`analyzeImage` carry it, the error turns that the two methods append on a failure do not, and
no user turn carries it. -/
theorem disclaimer_on_response_turns (time : String) (content : Option String)
    (hasImage isImageAnalysis : Bool) :
    (includes disclaimerHtml "Este diagnóstico debe ser validado por un profesional médico" =
      true) ∧
    (∀ r : BackendResponse,
      (renderMessage time "assistant" content (some r) hasImage isImageAnalysis).disclaimer =
        some disclaimerHtml) ∧
    ((renderMessage time "assistant" content none hasImage isImageAnalysis).disclaimer = none) ∧
    (∀ fullResponse : Option BackendResponse,
      (renderMessage time "user" content fullResponse hasImage isImageAnalysis).disclaimer =
        none) ∧
    (∀ (s : State) (status : Nat) (r : BackendResponse), FetchOutcome.statusOk status = true →
      (∃ div, (sendMessageSettled s time (FetchOutcome.response status
          (JsonResult.parsed r))).chatMessages = s.chatMessages ++ [ChatChild.message div] ∧
        div.disclaimer = some disclaimerHtml) ∧
      (∃ div, (analyzeImageSettled s time (FetchOutcome.response status
          (JsonResult.parsed r))).chatMessages = s.chatMessages ++ [ChatChild.message div] ∧
        div.disclaimer = some disclaimerHtml)) ∧
    (∀ (s : State) (outcome : FetchOutcome) (message : String),
      (sendMessageTry s time outcome = Except.error message →
        ∃ div, (sendMessageSettled s time outcome).chatMessages =
          s.chatMessages ++ [ChatChild.message div] ∧ div.disclaimer = none) ∧
      (analyzeImageTry s time outcome = Except.error message →
        ∃ div, (analyzeImageSettled s time outcome).chatMessages =
          s.chatMessages ++ [ChatChild.message div] ∧ div.disclaimer = none)) := by
  refine ⟨by decide, fun r => rfl, rfl, fun fullResponse => ?_, ?_, ?_⟩
  · cases fullResponse <;> rfl
  · intro s status r hs
    constructor
    · rw [sendMessageSettled_parsed s time status r hs]
      exact ⟨_, rfl, rfl⟩
    · rw [analyzeImageSettled_parsed s time status r hs]
      exact ⟨_, rfl, rfl⟩
  · intro s outcome message
    constructor
    · intro h
      rw [sendMessageSettled_error s time message outcome h]
      exact ⟨_, rfl, rfl⟩
    · intro h
      rw [analyzeImageSettled_error s time message outcome h]
      exact ⟨_, rfl, rfl⟩

theorem disclaimer_on_response_turns_witness :
    FetchOutcome.statusOk 200 = true ∧
    ∃ div, (sendMessageSettled sampleTyped "10:01" (FetchOutcome.response 200
        (JsonResult.parsed sampleReply))).chatMessages =
      sampleTyped.chatMessages ++ [ChatChild.message div] ∧
      div.disclaimer = some disclaimerHtml :=
  ⟨by decide,
   ((disclaimer_on_response_turns "10:01" none false false).2.2.2.2.1 sampleTyped 200
     sampleReply (by decide)).1⟩

/-! ## Tabs: one panel shown, one trigger active -/

theorem mem_classAdd (l : List String) (c x : String) :
    x ∈ classAdd l c ↔ x ∈ l ∨ x = c := by
  unfold classAdd
  split
  · constructor
    · exact Or.inl
    · rintro (h | h)
      · exact h
      · rw [h]
        assumption
  · simp

theorem mem_classRemove (l : List String) (c x : String) :
    x ∈ classRemove l c ↔ x ∈ l ∧ x ≠ c := by
  simp [classRemove]

theorem hasClass_hideTab (e : Element) (c : String) :
    (hideTab e).hasClass c = (e.hasClass c || c == "hidden") := by
  rw [Bool.eq_iff_iff]
  simp [Element.hasClass, hideTab, mem_classAdd]

theorem hasClass_revealTab (e : Element) (c : String) :
    (revealTab e).hasClass c = (e.hasClass c && c != "hidden") := by
  rw [Bool.eq_iff_iff]
  simp [Element.hasClass, revealTab, mem_classRemove]

theorem hasClass_deactivateBtn (e : Element) (c : String) :
    (deactivateBtn e).hasClass c =
      ((e.hasClass c && c != "active" && c != "border-white" && c != "text-white") ||
        c == "border-transparent" || c == "text-teal-100") := by
  rw [Bool.eq_iff_iff]
  simp [Element.hasClass, deactivateBtn, mem_classAdd, mem_classRemove, and_assoc, or_assoc]

theorem hasClass_activateBtn (e : Element) (c : String) :
    (activateBtn e).hasClass c =
      (((e.hasClass c || c == "active") && c != "border-transparent" && c != "text-teal-100") ||
        c == "border-white" || c == "text-white") := by
  rw [Bool.eq_iff_iff]
  simp [Element.hasClass, activateBtn, mem_classAdd, mem_classRemove, and_assoc, or_assoc]

theorem afterLoops_spec (e : Element) :
    (afterLoops e).id = e.id ∧
    (afterLoops e).onclick = e.onclick ∧
    (afterLoops e).hasClass "tab-content" = e.hasClass "tab-content" ∧
    (afterLoops e).hasClass "tab-btn" = e.hasClass "tab-btn" ∧
    (afterLoops e).isVisiblePanel = false ∧
    (afterLoops e).isActiveBtn = false := by
  unfold afterLoops
  cases h1 : e.hasClass "tab-content" <;> cases h2 : e.hasClass "tab-btn" <;>
    simp [Element.isVisiblePanel, Element.isActiveBtn, hasClass_hideTab, hasClass_deactivateBtn,
      h1, h2] <;>
    exact ⟨rfl, rfl⟩

theorem showTab_elements (page : Page) (tabName : String) :
    (showTab page tabName).elements =
      modifyFirst (fun e => e.onclick == some (triggerOnclick tabName)) activateBtn
        (modifyFirst (fun e => e.id == tabName ++ "-tab") revealTab
          (page.elements.map afterLoops)) := by
  have hmap : (page.elements.map
      (fun e => if e.hasClass "tab-content" then hideTab e else e)).map
      (fun e => if e.hasClass "tab-btn" then deactivateBtn e else e) =
      page.elements.map afterLoops := by
    rw [List.map_map]
    rfl
  unfold showTab
  simp only [hmap]
  split <;> rfl

theorem mem_modifyFirst (p : Element → Bool) (f : Element → Element) :
    ∀ (l : List Element) (y : Element), y ∈ modifyFirst p f l →
      y ∈ l ∨ ∃ x ∈ l, p x = true ∧ y = f x
  | [], y, h => by simp [modifyFirst] at h
  | e :: rest, y, h => by
    unfold modifyFirst at h
    by_cases hp : p e = true
    · rw [if_pos hp] at h
      rcases List.mem_cons.mp h with h | h
      · exact Or.inr ⟨e, List.mem_cons_self _ _, hp, h⟩
      · exact Or.inl (List.mem_cons_of_mem _ h)
    · rw [if_neg hp] at h
      rcases List.mem_cons.mp h with h | h
      · exact Or.inl (h ▸ List.mem_cons_self _ _)
      · rcases mem_modifyFirst p f rest y h with h | ⟨x, hx, hpx, hy⟩
        · exact Or.inl (List.mem_cons_of_mem _ h)
        · exact Or.inr ⟨x, List.mem_cons_of_mem _ hx, hpx, hy⟩

theorem exists_mem_modifyFirst (p q : Element → Bool) (f : Element → Element)
    (hq : ∀ x, q (f x) = q x) :
    ∀ l : List Element, (∃ x ∈ l, q x = true) → ∃ x ∈ modifyFirst p f l, q x = true
  | [], h => by
    obtain ⟨x, hx, _⟩ := h
    cases hx
  | e :: rest, h => by
    obtain ⟨x, hx, hqx⟩ := h
    unfold modifyFirst
    by_cases hp : p e = true
    · rw [if_pos hp]
      rcases List.mem_cons.mp hx with hx | hx
      · exact ⟨f e, List.mem_cons_self _ _, by rw [hq, ← hx, hqx]⟩
      · exact ⟨x, List.mem_cons_of_mem _ hx, hqx⟩
    · rw [if_neg hp]
      rcases List.mem_cons.mp hx with hx | hx
      · exact ⟨e, List.mem_cons_self _ _, by rw [← hx, hqx]⟩
      · obtain ⟨y, hy, hqy⟩ := exists_mem_modifyFirst p q f hq rest ⟨x, hx, hqx⟩
        exact ⟨y, List.mem_cons_of_mem _ hy, hqy⟩

theorem countP_modifyFirst_same (P p : Element → Bool) (f : Element → Element)
    (hP : ∀ x, P (f x) = P x) :
    ∀ l : List Element, (modifyFirst p f l).countP P = l.countP P
  | [] => rfl
  | e :: rest => by
    unfold modifyFirst
    by_cases hp : p e = true
    · rw [if_pos hp, List.countP_cons, List.countP_cons, hP]
    · rw [if_neg hp, List.countP_cons, List.countP_cons, countP_modifyFirst_same P p f hP rest]

theorem countP_modifyFirst_one (P p : Element → Bool) (f : Element → Element) :
    ∀ l : List Element, (∀ x ∈ l, P x = false) → (∃ x ∈ l, p x = true) →
      (∀ x ∈ l, p x = true → P (f x) = true) → (modifyFirst p f l).countP P = 1
  | [], _, h, _ => by
    obtain ⟨x, hx, _⟩ := h
    cases hx
  | e :: rest, hall, hex, hf => by
    have hrest : rest.countP P = 0 :=
      List.countP_eq_zero.mpr (fun a ha => by simp [hall a (List.mem_cons_of_mem _ ha)])
    unfold modifyFirst
    by_cases hp : p e = true
    · rw [if_pos hp, List.countP_cons, hrest, hf e (List.mem_cons_self _ _) hp]
      rfl
    · rw [if_neg hp, List.countP_cons, hall e (List.mem_cons_self _ _)]
      have hex2 : ∃ x ∈ rest, p x = true := by
        obtain ⟨x, hx, hpx⟩ := hex
        rcases List.mem_cons.mp hx with hx | hx
        · rw [hx] at hpx
          exact absurd hpx hp
        · exact ⟨x, hx, hpx⟩
      rw [countP_modifyFirst_one P p f rest
        (fun x hx => hall x (List.mem_cons_of_mem _ hx)) hex2
        (fun x hx => hf x (List.mem_cons_of_mem _ hx))]
      rfl

theorem revealTab_spec (e : Element) :
    (revealTab e).id = e.id ∧ (revealTab e).onclick = e.onclick ∧
    (revealTab e).hasClass "tab-btn" = e.hasClass "tab-btn" ∧
    (revealTab e).isActiveBtn = e.isActiveBtn ∧
    (revealTab e).isVisiblePanel = e.hasClass "tab-content" := by
  refine ⟨rfl, rfl, ?_, ?_, ?_⟩ <;>
    simp [Element.isActiveBtn, Element.isVisiblePanel, hasClass_revealTab]

theorem activateBtn_spec (e : Element) :
    (activateBtn e).id = e.id ∧ (activateBtn e).onclick = e.onclick ∧
    (activateBtn e).isVisiblePanel = e.isVisiblePanel ∧
    (activateBtn e).isActiveBtn = e.hasClass "tab-btn" := by
  refine ⟨rfl, rfl, ?_, ?_⟩ <;>
    simp [Element.isActiveBtn, Element.isVisiblePanel, hasClass_activateBtn]

/-- The elements of the page once the two loops have run and the target panel, if found, has
been revealed. -/
theorem mem_revealed (page : Page) (tabName : String) (x : Element)
    (hx : x ∈ modifyFirst (fun e => e.id == tabName ++ "-tab") revealTab
      (page.elements.map afterLoops)) :
    (∃ z ∈ page.elements, x.id = z.id ∧ x.onclick = z.onclick ∧
      x.hasClass "tab-btn" = z.hasClass "tab-btn") ∧
    x.isActiveBtn = false ∧
    (x.isVisiblePanel = true → x.id = tabName ++ "-tab") := by
  rcases mem_modifyFirst _ _ _ _ hx with h | ⟨y, hy, hpy, rfl⟩
  · obtain ⟨z, hz, rfl⟩ := List.mem_map.mp h
    obtain ⟨h1, h2, _, h4, h5, h6⟩ := afterLoops_spec z
    refine ⟨⟨z, hz, h1, h2, h4⟩, h6, ?_⟩
    intro hv
    rw [h5] at hv
    cases hv
  · obtain ⟨z, hz, rfl⟩ := List.mem_map.mp hy
    obtain ⟨h1, h2, _, h4, _, h6⟩ := afterLoops_spec z
    obtain ⟨r1, r2, r3, r4, _⟩ := revealTab_spec (afterLoops z)
    refine ⟨⟨z, hz, r1.trans h1, r2.trans h2, r3.trans h4⟩, r4.trans h6, ?_⟩
    intro _
    rw [r1]
    exact beq_iff_eq.mp hpy

/-- Against C8 as stated: with no panel and no trigger for the name, `showTab` leaves no panel
shown and no trigger active. -/
theorem showTab_unknown_name_shows_nothing :
    selectorSafe "settings" = true ∧
    samplePage.elements.countP Element.isVisiblePanel = 1 ∧
    (showTab samplePage "settings").elements.countP Element.isVisiblePanel = 0 ∧
    (showTab samplePage "settings").elements.countP Element.isActiveBtn = 0 := by
  decide

/-- C8, amended. For a tab name without double quote, backslash or line break, for which the
page has an element with the identifier `name-tab`, every such element being a panel, and an
element whose `onclick` is the call of `showTab` for that name, every such element being a
trigger: after `showTab(name)`, from every prior state of the page, exactly one panel is shown
and it has the identifier `name-tab`, every other panel being hidden, and exactly one trigger
has the active styling and it is one for that name, every other trigger being deactivated. -/
theorem showTab_one_panel_one_trigger (page : Page) (tabName : String)
    (_hsafe : selectorSafe tabName = true)
    (hpanel : ∃ e ∈ page.elements, e.id = tabName ++ "-tab")
    (hpanels : ∀ e ∈ page.elements, e.id = tabName ++ "-tab" → e.hasClass "tab-content" = true)
    (htrigger : ∃ e ∈ page.elements, e.onclick = some (triggerOnclick tabName))
    (htriggers : ∀ e ∈ page.elements, e.onclick = some (triggerOnclick tabName) →
      e.hasClass "tab-btn" = true) :
    ((showTab page tabName).elements.countP Element.isVisiblePanel = 1 ∧
     ∀ e ∈ (showTab page tabName).elements, e.isVisiblePanel = true →
      e.id = tabName ++ "-tab") ∧
    ((showTab page tabName).elements.countP Element.isActiveBtn = 1 ∧
     ∀ e ∈ (showTab page tabName).elements, e.isActiveBtn = true →
      e.onclick = some (triggerOnclick tabName)) := by
  rw [showTab_elements]
  refine ⟨⟨?_, ?_⟩, ⟨?_, ?_⟩⟩
  · rw [countP_modifyFirst_same _ _ _ (fun x => (activateBtn_spec x).2.2.1)]
    apply countP_modifyFirst_one
    · intro x hx
      obtain ⟨z, _, rfl⟩ := List.mem_map.mp hx
      exact (afterLoops_spec z).2.2.2.2.1
    · obtain ⟨e, he, hid⟩ := hpanel
      refine ⟨afterLoops e, List.mem_map_of_mem _ he, ?_⟩
      rw [beq_iff_eq, (afterLoops_spec e).1, hid]
    · intro x hx hpx
      obtain ⟨z, hz, rfl⟩ := List.mem_map.mp hx
      rw [(revealTab_spec _).2.2.2.2, (afterLoops_spec z).2.2.1]
      apply hpanels z hz
      rw [← (afterLoops_spec z).1]
      exact beq_iff_eq.mp hpx
  · intro e he hv
    rcases mem_modifyFirst _ _ _ _ he with h | ⟨x, hx, _, rfl⟩
    · exact (mem_revealed page tabName e h).2.2 hv
    · rw [(activateBtn_spec x).2.2.1] at hv
      rw [(activateBtn_spec x).1]
      exact (mem_revealed page tabName x hx).2.2 hv
  · apply countP_modifyFirst_one
    · intro x hx
      exact (mem_revealed page tabName x hx).2.1
    · apply exists_mem_modifyFirst _ (fun e => e.onclick == some (triggerOnclick tabName))
      · intro x
        rw [(revealTab_spec x).2.1]
      · obtain ⟨e, he, hon⟩ := htrigger
        refine ⟨afterLoops e, List.mem_map_of_mem _ he, ?_⟩
        rw [beq_iff_eq, (afterLoops_spec e).2.1, hon]
    · intro x hx hpx
      obtain ⟨⟨z, hz, _, hon, hbtn⟩, _, _⟩ := mem_revealed page tabName x hx
      rw [(activateBtn_spec x).2.2.2, hbtn]
      apply htriggers z hz
      rw [← hon]
      exact beq_iff_eq.mp hpx
  · intro e he ha
    rcases mem_modifyFirst _ _ _ _ he with h | ⟨x, _, hpx, rfl⟩
    · rw [(mem_revealed page tabName e h).2.1] at ha
      cases ha
    · rw [(activateBtn_spec x).2.1]
      exact beq_iff_eq.mp hpx

theorem showTab_one_panel_one_trigger_witness :
    (selectorSafe "history" = true ∧
     (∃ e ∈ samplePage.elements, e.id = "history" ++ "-tab") ∧
     (∃ e ∈ samplePage.elements, e.onclick = some (triggerOnclick "history"))) ∧
    (showTab samplePage "history").elements.countP Element.isVisiblePanel = 1 ∧
    (showTab samplePage "history").elements.countP Element.isActiveBtn = 1 :=
  have h := showTab_one_panel_one_trigger samplePage "history" (by decide) (by decide)
    (by decide) (by decide) (by decide)
  ⟨⟨by decide, by decide, by decide⟩, h.1.1, h.2.1⟩

/-! ## Presence of the confidence meter -/

theorem truthyNum_some (c : ℚ) : truthyNum (some c) = true ↔ c ≠ 0 := by
  simp [truthyNum]

/-- Against C11 as stated: a reply that carries the confidence 0 is rendered without a
confidence meter. -/
theorem zero_confidence_without_meter :
    sampleZeroConfidence.confidence = some 0 ∧
    (renderMessage "10:01" "assistant" (some "X") (some sampleZeroConfidence) false
      false).confidenceHtml = none := by
  refine ⟨rfl, ?_⟩
  rw [confidenceHtml_of_response]
  simp [sampleZeroConfidence, truthyNum]

/-- C11, amended. An assistant turn rendered with a response shows the confidence meter
exactly when the response carries a confidence other than 0: it shows it for every confidence
`c` with `0 < c ≤ 1`, the endpoint 1 included, and it shows none for the confidence 0 and for
a response without confidence. No meter is shown on a user turn nor on a turn rendered
without a response object. -/
theorem confidence_meter_presence (time : String) (content : Option String)
    (hasImage isImageAnalysis : Bool) :
    (∀ r : BackendResponse,
      (renderMessage time "assistant" content (some r) hasImage
        isImageAnalysis).confidenceHtml.isSome = true ↔
      ∃ c, r.confidence = some c ∧ c ≠ 0) ∧
    (∀ (r : BackendResponse) (c : ℚ), r.confidence = some c → 0 < c → c ≤ 1 →
      (renderMessage time "assistant" content (some r) hasImage
        isImageAnalysis).confidenceHtml = some (confidenceBlock c)) ∧
    (∀ r : BackendResponse, r.confidence = some 0 ∨ r.confidence = none →
      (renderMessage time "assistant" content (some r) hasImage
        isImageAnalysis).confidenceHtml = none) ∧
    (∀ fullResponse : Option BackendResponse,
      (renderMessage time "user" content fullResponse hasImage
        isImageAnalysis).confidenceHtml = none) ∧
    (∀ role : String,
      (renderMessage time role content none hasImage isImageAnalysis).confidenceHtml = none) := by
  have hu : (!("assistant" == "user")) = true := by decide
  refine ⟨?_, ?_, ?_, ?_, fun role => rfl⟩
  · intro r
    rw [confidenceHtml_of_response, hu, Bool.true_and]
    cases hc : r.confidence with
    | none => simp [truthyNum]
    | some c =>
      by_cases h0 : c = 0
      · simp [truthyNum, h0]
      · simp [truthyNum, h0]
  · intro r c hc hpos _
    rw [confidenceHtml_of_response, hu, Bool.true_and, hc,
      (truthyNum_some c).mpr (ne_of_gt hpos)]
    rfl
  · intro r hc
    rw [confidenceHtml_of_response, hu, Bool.true_and]
    rcases hc with hc | hc <;> simp [hc, truthyNum]
  · intro fullResponse
    cases fullResponse with
    | none => rfl
    | some r =>
      rw [confidenceHtml_of_response]
      have hn : (!("user" == "user")) = false := by decide
      rw [hn, Bool.false_and]
      rfl

theorem confidence_meter_presence_witness :
    (sampleFullConfidence.confidence = some 1 ∧ (0 : ℚ) < 1 ∧ (1 : ℚ) ≤ 1) ∧
    (renderMessage "10:01" "assistant" (some "X") (some sampleFullConfidence) false
      false).confidenceHtml = some (confidenceBlock 1) :=
  ⟨⟨rfl, by norm_num, by norm_num⟩,
   (confidence_meter_presence "10:01" (some "X") false false).2.1 sampleFullConfidence 1 rfl
     (by norm_num) (by norm_num)⟩

/-! ## What `clearChat` resets -/

/-- Against C12 as stated: an image staged before `clearChat` is still staged after
`clearChat` and its scheduled restore. -/
theorem clearChat_keeps_staged_image :
    sampleStaged.currentImage = some { name := "rx.png", type := "image/png", size := 2048 } ∧
    (runTimeout (clearChat sampleStaged) (Timeout.restoreWelcome 300)).currentImage =
      some { name := "rx.png", type := "image/png", size := 2048 } ∧
    (runTimeout (clearChat sampleStaged) (Timeout.restoreWelcome 300)).currentImage ≠ none := by
  refine ⟨rfl, rfl, ?_⟩
  intro h
  cases h

/-- C12, amended. From every prior state, after `clearChat` and its scheduled restore the
conversation identifier is unset and the flag `welcomeCleared` is false, the values the
constructor gives them; the staged image is the one staged before, `clearChat` and the
restore leaving it as it was. -/
theorem clearChat_resets_conversation (s : State) :
    (runTimeout (clearChat s) (Timeout.restoreWelcome 300)).currentConversationId = none ∧
    (runTimeout (clearChat s) (Timeout.restoreWelcome 300)).welcomeCleared = false ∧
    (runTimeout (clearChat s) (Timeout.restoreWelcome 300)).currentImage = s.currentImage ∧
    (clearChat s).currentImage = s.currentImage ∧
    (∀ later : State,
      (runTimeout later (Timeout.restoreWelcome 300)).currentImage = later.currentImage) :=
  ⟨rfl, rfl, rfl, rfl, fun _ => rfl⟩

/-! ## The state after `analyzeImage` -/

theorem clearWelcomeMessage_currentImage (s : State) :
    (clearWelcomeMessage s).currentImage = s.currentImage := by
  by_cases h : (decide ((s.chatMessages.filter ChatChild.isFadeIn).length > 0) &&
      !s.welcomeCleared) = true
  · simp only [clearWelcomeMessage, if_pos h]
  · simp only [clearWelcomeMessage, if_neg h]

theorem analyzeImageRequest_currentImage (s : State) (image : File) (time : String) :
    (analyzeImageRequest s image time).currentImage = s.currentImage := by
  simp only [analyzeImageRequest, addMessageToChat, clearWelcomeMessage_currentImage]
  rfl

theorem analyzeImage_of_staged (s : State) (image : File) (timeSent timeReply : String)
    (outcome : FetchOutcome) (h : s.currentImage = some image) :
    analyzeImage s timeSent timeReply outcome =
      analyzeImageSettled (analyzeImageRequest s image timeSent) timeReply outcome := by
  unfold analyzeImage
  rw [h]

theorem analyzeImageTry_status (s : State) (time : String) (status : Nat) (json : JsonResult)
    (h : FetchOutcome.statusOk status = false) :
    analyzeImageTry s time (FetchOutcome.response status json) =
      Except.error (httpErrorMessage status) := by
  simp [analyzeImageTry, h]

theorem overlay_hidden (classes : List String) :
    "hidden" ∈ classRemove (classAdd classes "hidden") "flex" ∧
    "flex" ∉ classRemove (classAdd classes "hidden") "flex" := by
  constructor
  · rw [mem_classRemove, mem_classAdd]
    exact ⟨Or.inr rfl, by decide⟩
  · rw [mem_classRemove]
    intro h
    exact h.2 rfl

/-- C13. With an image staged, `analyzeImage` ends as follows. After a reply with a status in
200..299 and a parsed body, whatever its fields, no image is staged, the analyze button is
enabled and the loading overlay is hidden. After a fetch that rejects or a reply with a status
outside 200..299, the image staged before is still staged, the analyze button is enabled and
the loading overlay is hidden. So the analyze button is enabled after every completion, the
one that leaves no image staged included. -/
theorem analyzeImage_post_state (s : State) (image : File) (timeSent timeReply : String)
    (hs : s.currentImage = some image) :
    (∀ (status : Nat) (r : BackendResponse), FetchOutcome.statusOk status = true →
      (analyzeImage s timeSent timeReply (FetchOutcome.response status
        (JsonResult.parsed r))).currentImage = none ∧
      (analyzeImage s timeSent timeReply (FetchOutcome.response status
        (JsonResult.parsed r))).analyzeBtn =
        { disabled := false, innerHTML := analyzeIdleLabel } ∧
      "hidden" ∈ (analyzeImage s timeSent timeReply (FetchOutcome.response status
        (JsonResult.parsed r))).loadingOverlay ∧
      "flex" ∉ (analyzeImage s timeSent timeReply (FetchOutcome.response status
        (JsonResult.parsed r))).loadingOverlay) ∧
    (∀ outcome : FetchOutcome,
      ((∃ message, outcome = FetchOutcome.rejected message) ∨
       (∃ status json, outcome = FetchOutcome.response status json ∧
        FetchOutcome.statusOk status = false)) →
      (analyzeImage s timeSent timeReply outcome).currentImage = some image ∧
      (analyzeImage s timeSent timeReply outcome).analyzeBtn =
        { disabled := false, innerHTML := analyzeIdleLabel } ∧
      "hidden" ∈ (analyzeImage s timeSent timeReply outcome).loadingOverlay ∧
      "flex" ∉ (analyzeImage s timeSent timeReply outcome).loadingOverlay) ∧
    (∀ outcome : FetchOutcome,
      (analyzeImage s timeSent timeReply outcome).analyzeBtn =
        { disabled := false, innerHTML := analyzeIdleLabel }) ∧
    (∀ (later : State) (outcome : FetchOutcome),
      (analyzeImageSettled later timeReply outcome).analyzeBtn =
        { disabled := false, innerHTML := analyzeIdleLabel }) := by
  have hbtn : ∀ (later : State) (outcome : FetchOutcome),
      (analyzeImageSettled later timeReply outcome).analyzeBtn =
        { disabled := false, innerHTML := analyzeIdleLabel } := by
    intro later outcome
    rfl
  refine ⟨?_, ?_, ?_, hbtn⟩
  · intro status r hok
    rw [analyzeImage_of_staged s image _ _ _ hs, analyzeImageSettled_parsed _ _ status r hok]
    exact ⟨rfl, rfl, (overlay_hidden _).1, (overlay_hidden _).2⟩
  · intro outcome ho
    have herr : ∃ message, analyzeImageTry (analyzeImageRequest s image timeSent) timeReply
        outcome = Except.error message := by
      rcases ho with ⟨message, rfl⟩ | ⟨status, json, rfl, hst⟩
      · exact ⟨message, rfl⟩
      · exact ⟨_, analyzeImageTry_status _ _ status json hst⟩
    obtain ⟨message, hm⟩ := herr
    rw [analyzeImage_of_staged s image _ _ _ hs, analyzeImageSettled_error _ _ message _ hm]
    refine ⟨?_, rfl, (overlay_hidden _).1, (overlay_hidden _).2⟩
    exact (analyzeImageRequest_currentImage s image timeSent).trans hs
  · intro outcome
    rw [analyzeImage_of_staged s image _ _ _ hs]
    exact hbtn _ outcome

theorem analyzeImage_post_state_witness :
    (sampleStaged.currentImage = some { name := "rx.png", type := "image/png", size := 2048 } ∧
     FetchOutcome.statusOk 200 = true) ∧
    (analyzeImage sampleStaged "10:00" "10:01" (FetchOutcome.response 200
      (JsonResult.parsed sampleReply))).currentImage = none ∧
    (analyzeImage sampleStaged "10:00" "10:01" (FetchOutcome.response 200
      (JsonResult.parsed sampleReply))).analyzeBtn =
      { disabled := false, innerHTML := analyzeIdleLabel } :=
  have h := (analyzeImage_post_state sampleStaged
    { name := "rx.png", type := "image/png", size := 2048 } "10:00" "10:01" rfl).1 200
    sampleReply (by decide)
  ⟨⟨rfl, by decide⟩, h.1, h.2.1⟩

end MedicoIA
